import Mathlib

/-!
Verification development for the cantori-attendance repository.

The Python source manipulates pandas DataFrames whose column labels are either
strings or `datetime.date` values, and whose cells are nullable integers or
strings.  This file gives a shallow embedding of the data model and of the
report-generation pipeline (`attendance_report.py`, `consistency_report.py`,
`report_utils.py`, `function_app.py`), and proves or refutes the frozen claims
about it.
-/

namespace Cantori

/-! ## Calendar dates (`datetime.date`)

A date is a year/month/day triple of naturals.  Comparison is lexicographic,
which agrees with chronological order on well-formed dates.  `toOrdinal`
mirrors Python's `date.toordinal` (proleptic Gregorian, 0001-01-01 ↦ 1), and
`pyWeekday` mirrors `date.weekday()` (Monday = 0, ..., Sunday = 6).
-/

structure CDate where
  y : Nat
  m : Nat
  d : Nat
deriving DecidableEq, Repr

namespace CDate

/-- Lexicographic order on (year, month, day); chronological order for real dates. -/
def le (a b : CDate) : Prop :=
  a.y < b.y ∨ (a.y = b.y ∧ (a.m < b.m ∨ (a.m = b.m ∧ a.d ≤ b.d)))

def lt (a b : CDate) : Prop :=
  a.y < b.y ∨ (a.y = b.y ∧ (a.m < b.m ∨ (a.m = b.m ∧ a.d < b.d)))

instance : LE CDate := ⟨le⟩
instance : LT CDate := ⟨lt⟩

instance decLe (a b : CDate) : Decidable (a ≤ b) := by
  change Decidable (le a b); unfold le; infer_instance

instance decLt (a b : CDate) : Decidable (a < b) := by
  change Decidable (lt a b); unfold lt; infer_instance

/-- Boolean version of `le`, used where the Python code compares dates. -/
def leB (a b : CDate) : Bool := decide (a ≤ b)

def ltB (a b : CDate) : Bool := decide (a < b)

/-- True in the proleptic Gregorian calendar. -/
def isLeap (y : Nat) : Bool := (y % 4 == 0 && y % 100 != 0) || y % 400 == 0

def daysInMonth (y : Nat) (m : Nat) : Nat :=
  if m = 1 then 31 else if m = 2 then (if isLeap y then 29 else 28)
  else if m = 3 then 31 else if m = 4 then 30 else if m = 5 then 31
  else if m = 6 then 30 else if m = 7 then 31 else if m = 8 then 31
  else if m = 9 then 30 else if m = 10 then 31 else if m = 11 then 30
  else if m = 12 then 31 else 0

/-- Days in full months of year `y` strictly before month `m` (1-based). -/
def daysBeforeMonth (y : Nat) (m : Nat) : Nat :=
  (List.range 13).foldl (fun acc k => if 1 ≤ k ∧ k < m then acc + daysInMonth y k else acc) 0

/-- Python `date.toordinal`: day number with 0001-01-01 ↦ 1. -/
def toOrdinal (dt : CDate) : Nat :=
  365 * (dt.y - 1) + (dt.y - 1) / 4 - (dt.y - 1) / 100 + (dt.y - 1) / 400
    + daysBeforeMonth dt.y dt.m + dt.d

/-- Python `date.weekday()`: Monday = 0 ... Sunday = 6. -/
def pyWeekday (dt : CDate) : Nat := (toOrdinal dt + 6) % 7

/-- `d + timedelta(days=1)` for well-formed dates. -/
def nextDay (dt : CDate) : CDate :=
  if dt.d < daysInMonth dt.y dt.m then ⟨dt.y, dt.m, dt.d + 1⟩
  else if dt.m < 12 then ⟨dt.y, dt.m + 1, 1⟩
  else ⟨dt.y + 1, 1, 1⟩

def pad2 (n : Nat) : String := if n < 10 then "0" ++ toString n else toString n

/-- Python `str(date)`: ISO format YYYY-MM-DD (for years ≥ 1000). -/
def toISO (dt : CDate) : String :=
  toString dt.y ++ "-" ++ pad2 dt.m ++ "-" ++ pad2 dt.d

/-- Python `date.strftime("%B")`: full month name. -/
def monthName (dt : CDate) : String :=
  if dt.m = 1 then "January" else if dt.m = 2 then "February"
  else if dt.m = 3 then "March" else if dt.m = 4 then "April"
  else if dt.m = 5 then "May" else if dt.m = 6 then "June"
  else if dt.m = 7 then "July" else if dt.m = 8 then "August"
  else if dt.m = 9 then "September" else if dt.m = 10 then "October"
  else if dt.m = 11 then "November" else "December"

end CDate

/-- Python `min(dates)` / `max(dates)` over a possibly-empty list. -/
def listMin? : List CDate → Option CDate
  | [] => none
  | c :: rest => some (rest.foldl (fun acc x => if CDate.leB x acc then x else acc) c)

def listMax? : List CDate → Option CDate
  | [] => none
  | c :: rest => some (rest.foldl (fun acc x => if CDate.leB acc x then x else acc) c)

/-! ## A small model of the pandas structures used by the source

Column labels are strings or `datetime.date` values (`Col`).  Cells are
strings, (nullable) integers, booleans, the float `inf` used as a sort-key
filler, or missing (`Val.na`, standing for NaN / pd.NA).  A row is an
association list from column label to cell; a DataFrame is a column list plus
a list of rows.  Comparison operators follow pandas semantics: `==` against a
missing value is False, `!=` against a missing value is True.
-/

inductive Col
  | s (n : String)
  | d (dt : CDate)
deriving DecidableEq, Repr

inductive Val
  | str (s : String)
  | int (n : Int)
  | bool (b : Bool)
  | inf
  | na
deriving DecidableEq, Repr

namespace Val

/-- pandas `==`: missing values compare unequal to everything (incl. themselves). -/
def eq : Val → Val → Bool
  | na, _ => false
  | _, na => false
  | str a, str b => a == b
  | int a, int b => a == b
  | bool a, bool b => a == b
  | inf, inf => true
  | _, _ => false

/-- pandas `!=`: missing values compare not-equal to everything (incl. themselves). -/
def ne (a b : Val) : Bool := !(eq a b)

/-- `Series.isin(list of strings)`: missing is never in the list. -/
def isin (v : Val) (l : List String) : Bool :=
  match v with
  | str a => l.contains a
  | _ => false

/-- `Series.fillna(v)` applied cell-wise. -/
def fillna (filler v : Val) : Val := if v = na then filler else v

/-- Numeric value used by sums: NaN is skipped (counts 0), True counts 1. -/
def toIntD (v : Val) : Int :=
  match v with
  | int n => n
  | bool b => if b then 1 else 0
  | _ => 0

/-- Python `str(...)` of a cell value. -/
def pyStr : Val → String
  | str a => a
  | int n => toString n
  | bool b => if b then "True" else "False"
  | inf => "inf"
  | na => "nan"

/-- `isinstance(cell, (int, np.integer))`; Python `bool` is a subclass of `int`. -/
def isInstInt : Val → Bool
  | int _ => true
  | bool _ => true
  | _ => false

end Val

/-- Python `str(...)` of an `Optional[date]` (used for `most_recent_rehearsal`). -/
def pyStrOptDate : Option CDate → String
  | none => "None"
  | some dt => dt.toISO

abbrev Row := List (Col × Val)

/-- Value of column `c` in a row; missing entries read as NaN (an outer-joined
row simply lacks the other side's columns). -/
def getV (r : Row) (c : Col) : Val := ((r.lookup c).getD .na)

/-- DataFrame: ordered column labels plus rows keyed by them. -/
structure DFL where
  cols : List Col
  rows : List Row
deriving Repr

namespace DFL

def hasCol (df : DFL) (c : Col) : Bool := df.cols.contains c

def colVals (df : DFL) (c : Col) : List Val := df.rows.map (getV · c)

/-- Column assignment `df[c] = vals` on a single row: replace in place, or
append the new column at the end (pandas semantics). -/
def setIn (r : Row) (c : Col) (v : Val) : Row :=
  if r.any (fun p => p.1 == c) then r.map (fun p => if p.1 == c then (c, v) else p)
  else r ++ [(c, v)]

/-- Column assignment `df[c] = vals` (as done by `DataFrame.assign`): existing
columns keep their position, new columns are appended. -/
def setCol (df : DFL) (c : Col) (vs : List Val) : DFL :=
  { cols := if df.cols.contains c then df.cols else df.cols ++ [c]
    rows := df.rows.zipWith (fun r v => setIn r c v) vs }

/-- `df[[cols]]`: column selection. -/
def select (df : DFL) (cs : List Col) : DFL :=
  { cols := cs, rows := df.rows.map (fun r => cs.map (fun c => (c, getV r c))) }

/-- `df[mask]`: boolean-mask row filtering. -/
def maskRows (rows : List Row) (mask : List Bool) : List Row :=
  ((rows.zip mask).filter (fun p => p.2)).map (fun p => p.1)

/-- The date-valued column labels, in order (`[c for c in df.columns if isinstance(c, date)]`). -/
def dateCols (df : DFL) : List CDate :=
  df.cols.filterMap (fun c => match c with | .d dt => some dt | .s _ => none)

/-- Sum of a column, skipping missing values (pandas `Series.sum()`). -/
def colSum (df : DFL) (c : Col) : Int := ((df.colVals c).map Val.toIntD).sum

/-- A column counts as numeric for `sum(numeric_only=True)` if no cell is a string. -/
def colNumeric (df : DFL) (c : Col) : Bool :=
  (df.colVals c).all (fun v => match v with | .str _ => false | _ => true)

end DFL

/-- Total comparison used for `sort_values`: missing values sort last
(`na_position="last"`), `inf` after every finite number. -/
def valLeB : Val → Val → Bool
  | .na, v => v == .na
  | _, .na => true
  | .int a, .int b => a ≤ b
  | .int _, .inf => true
  | .inf, .int _ => false
  | .inf, .inf => true
  | .str a, .str b => a ≤ b
  | .bool a, .bool b => !a || b
  | _, _ => true

/-- `sort_values(["sort_key", "Name"])`. -/
def rowLeSortKeyName (a b : Row) : Prop :=
  (if getV a (.s "sort_key") = getV b (.s "sort_key")
   then valLeB (getV a (.s "Name")) (getV b (.s "Name"))
   else valLeB (getV a (.s "sort_key")) (getV b (.s "sort_key"))) = true

instance : DecidableRel rowLeSortKeyName := fun _ _ => by
  unfold rowLeSortKeyName; infer_instance

def sortRowsBySortKeyName (rows : List Row) : List Row :=
  rows.insertionSort rowLeSortKeyName

/-! ## `report_utils.py` -/

/-- `report_utils.Email` (frozen dataclass). -/
structure EmailMsg where
  subject : String
  body : String
  toAddrs : List String
  cc : List String := []
deriving DecidableEq, Repr

def MondayConcertStateYES : String := "Yes"
def MondayConcertStatePARTIAL : String := "Partial"
def MondayConcertStateMAYBE : String := "Maybe"
def MondayConcertStateNO : String := "No"

def SINGING_STATES : List String := [MondayConcertStateYES, MondayConcertStatePARTIAL]
def PARTIAL_STATES : List String := [MondayConcertStatePARTIAL]
def MAYBE_STATES : List String := [MondayConcertStateMAYBE]
def NO_STATES : List String := [MondayConcertStateNO]

def ATTENDANCE_EMAILS : List String :=
  ["attendance@cantorinewyork.com", "richard.berg@cantorinewyork.com",
   "sectionleaders@cantorinewyork.com"]

def CONSISTENCY_EMAILS : List String :=
  ["attendance@cantorinewyork.com", "richard.berg@cantorinewyork.com"]

def actionItem (msg : String) : String :=
  let style := "\n        font-size: 1.15rem;\n        font-style: italic;\n        background-color: #FDFD96;\n    "
  "<span style=\"" ++ style ++ "\">" ++ msg ++ "</span>"

/-- `report_utils._table`.  `columns` are the display column names; `col_map`
membership tests become `hasCol` checks. -/
def tableHTML (df : DFL) (columns : List String) (headers : Bool) (totals : Bool) : String :=
  let tblStyle := "\n        border-collapse: collapse;\n        border: 2px solid #eee;\n    "
  let hasEmail := df.hasCol (.s "Email")
  let hasColor := df.hasCol (.s "color")
  let rowHtml := fun (i : Nat) (row : Row) =>
    let rowBg := if i % 2 == 0 then "white" else "#eee"
    let rowStyle := "\n            background-color: " ++ rowBg ++ ";\n        "
    let cells := (columns.enum.map (fun p =>
      let j := p.1
      let col := p.2
      let weight := if j == 0 then "bold" else "normal"
      let cellValue : Val :=
        if col == "Name" && hasEmail then
          .str ("\n                <a href=\"mailto:" ++ (getV row (.s "Email")).pyStr
            ++ "\" style=\"text-decoration:none;\">\n                    "
            ++ (getV row (.s "Name")).pyStr ++ "\n                </a>\n                ")
        else getV row (.s col)
      let cellStyle :=
        if col == "Voice Part" && hasColor then
          "\n                    padding: 0.5rem 2rem;\n                    color: white;\n                    background-color: "
            ++ (getV row (.s "color")).pyStr
            ++ ";\n                    text-align: center;\n                    font-weight: "
            ++ weight ++ ";\n                "
        else
          let align := if cellValue.isInstInt then "center" else "left"
          "\n                    padding: 0.5rem 1rem;\n                    color: black;\n                    text-align: "
            ++ align ++ ";\n                    font-weight: " ++ weight ++ ";\n                "
      "\n<td style=\"" ++ cellStyle ++ "\">" ++ cellValue.pyStr ++ "</td>")).foldl (· ++ ·) ""
    "<tr style=\"" ++ rowStyle ++ "\">" ++ cells ++ "</tr>"
  let body := String.intercalate "\n" (df.rows.enum.map (fun p => rowHtml p.1 p.2))
  let headStyle := "\n            font-weight: bold;\n            font-size: 1.25rem;\n            text-align: center;\n            padding: 0.5rem 1rem;\n            background-color: rgba(12, 100, 192, 0.125);\n        "
  let head :=
    if headers then
      let skipFirstHeader := [""] ++ columns.drop 1
      let headCells := String.intercalate "\n"
        (skipFirstHeader.map (fun col => "<th scope=\"col\" style=\"" ++ headStyle ++ "\">" ++ col ++ "</th>"))
      "<tr>" ++ headCells ++ "</tr>"
    else ""
  let footer :=
    if totals then
      let numericDisplay := columns.filter (fun c => df.colNumeric (.s c))
      let totalCells := String.intercalate "\n"
        (numericDisplay.map (fun c => "<td style=\"" ++ headStyle ++ "\">" ++ toString (df.colSum (.s c)) ++ "</td>"))
      "<tr><th scope=\"row\" style=\"" ++ headStyle ++ "\"></th>" ++ totalCells ++ "</tr>"
    else ""
  "\n    <table style=\"" ++ tblStyle ++ "\">\n        <thead>\n            " ++ head
    ++ "\n        </thead>\n        <tbody>\n            " ++ body
    ++ "\n        </tbody>\n        <tfoot>\n            " ++ footer
    ++ "\n        </tfoot>\n    </table>\n    "

/-- The per-row `mailto` anchor of `format_singers_oneline`. -/
def singerAnchor (row : Row) : String :=
  let style := "\n            display: inline-block;\n            text-decoration: none;\n            color: white;\n            background-color: "
    ++ (getV row (.s "color")).pyStr ++ ";\n            border: 1px;\n            padding: 0.5rem 1rem;\n        "
  "<a href=\"mailto:" ++ (getV row (.s "Email")).pyStr ++ "\" style=\"" ++ style ++ "\">"
    ++ (getV row (.s "Name")).pyStr ++ "</a>"

def formatSingersOnelineRows (rows : List Row) : String :=
  if rows.isEmpty then "None"
  else String.intercalate "\n" (rows.map singerAnchor)

/-- `report_utils.format_singers_oneline`. -/
def format_singers_oneline (singers : DFL) : String := formatSingersOnelineRows singers.rows

/-- `report_utils.format_singers_indented`. -/
def format_singers_indented (singers : DFL) : String :=
  "<p style=\"margin-left: 1.5rem\">" ++ format_singers_oneline singers ++ "</p>"

/-- `df.rename(columns=...)` restricted to the two renames the source performs. -/
def renameCols2 (df : DFL) (a b : String) (a2 b2 : String) : DFL :=
  let f := fun (c : Col) => if c = .s a then Col.s a2 else if c = .s b then Col.s b2 else c
  { cols := df.cols.map f, rows := df.rows.map (fun r => r.map (fun p => (f p.1, p.2))) }

/-- `report_utils.format_mismatch_table`. -/
def format_mismatch_table (singers : DFL) (mondayCol choirgeniusCol : String) : String :=
  let mask := singers.rows.map (fun r =>
    (getV r (.s "cg")).eq (.str "both") && (getV r (.s mondayCol)).ne (getV r (.s choirgeniusCol)))
  let df : DFL := { cols := singers.cols, rows := DFL.maskRows singers.rows mask }
  if df.rows.isEmpty then "None"
  else
    let df2 := renameCols2 df mondayCol choirgeniusCol "Monday" "ChoirGenius"
    tableHTML df2 ["Name", "Monday", "ChoirGenius"] true false

/-- Lexicographic comparison of key tuples (used to model the sorted group
keys of `groupby(..., sort=True)`). -/
def valListLeB : List Val → List Val → Bool
  | [], _ => true
  | _ :: _, [] => false
  | a :: as, b :: bs => if a = b then valListLeB as bs else valLeB a b

/-- The groupby key columns of `format_subtotals_table`. -/
def sgKeyCols : List Col := [.s "Voice Part", .s "sort_key", .s "color"]

def sgKeyOf (r : Row) : List Val := sgKeyCols.map (getV r)

/-- Rows kept by `groupby(..., dropna=True)`: no missing value in any key column. -/
def sgKept (df : DFL) : List Row :=
  df.rows.filter (fun r => sgKeyCols.all (fun c => getV r c ≠ .na))

/-- The distinct group keys, in sorted order (`groupby(..., sort=True)`). -/
def sgKeys (df : DFL) : List (List Val) :=
  (((sgKept df).map sgKeyOf).dedup).insertionSort (fun a b => valListLeB a b = true)

/-- The in-group sum of column `n` (booleans count as 0/1, as in pandas). -/
def sgGroupSum (df : DFL) (k : List Val) (n : String) : Int :=
  ((sgKept df).filter (fun r => sgKeyOf r = k)).foldl
    (fun a r => a + (getV r (.s n)).toIntD) 0

def sgRow (df : DFL) (sumCols : List String) (k : List Val) : Row :=
  (sgKeyCols.zip k) ++ sumCols.map (fun n => (Col.s n, Val.int (sgGroupSum df k n)))

/-- `df[all_cols].groupby(["Voice Part", "sort_key", "color"]).sum().reset_index()`:
rows with a missing group key are dropped (pandas `dropna=True`), keys are the
distinct remaining triples in sorted order, and each `sumCols` entry is summed
within its group (booleans count as 0/1). -/
def groupbySumVoiceSortColor (df : DFL) (sumCols : List String) : DFL :=
  { cols := sgKeyCols ++ sumCols.map .s
    rows := (sgKeys df).map (sgRow df sumCols) }

/-- `sort_values("sort_key")` (single key). -/
def rowLeSortKey (a b : Row) : Prop :=
  valLeB (getV a (.s "sort_key")) (getV b (.s "sort_key")) = true

instance : DecidableRel rowLeSortKey := fun _ _ => by
  unfold rowLeSortKey; infer_instance

/-- The grouped-and-sorted frame `format_subtotals_table` hands to `_table`
(assign the indicator columns, select, group by voice part / sort key / color
with summation, `sort_values("sort_key")`). -/
def subtotalsGrouped (df : DFL) (indicators : List (String × List Bool)) : DFL :=
  let df1 := indicators.foldl (fun d p => d.setCol (.s p.1) (p.2.map Val.bool)) df
  let indicatorColNames := indicators.map (·.1)
  let allCols := ["Voice Part", "sort_key", "color"] ++ indicatorColNames
  let df2 := df1.select (allCols.map .s)
  let grouped := groupbySumVoiceSortColor df2 indicatorColNames
  { cols := grouped.cols, rows := grouped.rows.insertionSort rowLeSortKey }

/-- `report_utils.format_subtotals_table`. -/
def format_subtotals_table (df : DFL) (indicators : List (String × List Bool)) : String :=
  let indicatorColNames := indicators.map (·.1)
  let allCols := ["Voice Part", "sort_key", "color"] ++ indicatorColNames
  let displayCols := allCols.filter (fun c => ¬ (c = "sort_key" ∨ c = "color"))
  tableHTML (subtotalsGrouped df indicators) displayCols true true

/-- `report_utils.format_absence_totals`: group by the absence triple
(descending), aggregate names as a set, re-join each set against the input to
sort by (sort_key, Name), and render with mail-to links. -/
def format_absence_totals (singers : DFL) : String :=
  let keyCols := [Col.s "Absences_total", Col.s "Absences_actual", Col.s "Absences_projected"]
  let keyOf := fun (r : Row) => keyCols.map (getV r)
  let kept := singers.rows.filter (fun r => keyCols.all (fun c => getV r c ≠ .na))
  let keys := ((kept.map keyOf).dedup).insertionSort (fun a b => valListLeB b a = true)
  let outRows := keys.map (fun k =>
    let grp := kept.filter (fun r => keyOf r = k)
    let names := (grp.map (fun r => getV r (.s "Name"))).dedup
    let joined := names.flatMap (fun nm => singers.rows.filter (fun r => getV r (.s "Name") = nm))
    let fmt := formatSingersOnelineRows (sortRowsBySortKeyName joined)
    [(Col.s "Total", k.getD 0 .na), (Col.s "Actual", k.getD 1 .na),
     (Col.s "Projected", k.getD 2 .na),
     (Col.s "Singers (click to email)", Val.str fmt)])
  let df : DFL :=
    { cols := [Col.s "Total", Col.s "Actual", Col.s "Projected", Col.s "Singers (click to email)"]
      rows := outRows }
  tableHTML df ["Total", "Actual", "Projected", "Singers (click to email)"] true false

/-- `report_utils._fill_and_sort`.  Note the `whole_name` branch *replaces* the
`"Email"` entry of the replacement dict: there the fill source is the
`EMAIL` column (from the audition-candidates board), not the literal
"email-is-missing", and not the portal's `primary_email`. -/
def fill_and_sort (df : DFL) : DFL :=
  let colorR := (df.colVals (.s "color")).map (Val.fillna (.str "black"))
  let sortKeyR := (df.colVals (.s "sort_key")).map (Val.fillna .inf)
  let emailR := (df.colVals (.s "Email")).map (Val.fillna (.str "email-is-missing"))
  let reps : List (String × List Val) :=
    if df.hasCol (.s "whole_name") then
      [("color", colorR), ("sort_key", sortKeyR),
       ("Email", df.rows.map (fun r => Val.fillna (getV r (.s "EMAIL")) (getV r (.s "Email")))),
       ("Name", df.rows.map (fun r => Val.fillna (getV r (.s "whole_name")) (getV r (.s "Name")))),
       ("Voice Part", df.rows.map (fun r => Val.fillna (getV r (.s "voice_part")) (getV r (.s "Voice Part"))))]
    else [("color", colorR), ("sort_key", sortKeyR), ("Email", emailR)]
  let df1 := reps.foldl (fun d p => d.setCol (.s p.1) p.2) df
  { cols := df1.cols, rows := sortRowsBySortKeyName df1.rows }

/-- `report_utils._projected_absence_details`. -/
def projected_absence_details (df : DFL) (rehearsalCol : Col) : String :=
  let absent : DFL :=
    { cols := df.cols, rows := df.rows.filter (fun r => (getV r rehearsalCol).eq (.int 0)) }
  let unmarked : DFL :=
    { cols := df.cols, rows := df.rows.filter (fun r => getV r rehearsalCol = .na) }
  "\n    <h2>Singers who are marked absent:</h2>\n    "
    ++ format_singers_indented absent
    ++ "\n\n    <h2>Singers who haven't marked their plans in ChoirGenius:</h2>\n    "
    ++ format_singers_indented unmarked ++ "\n    "

def footerHTML : String :=
  "\n    <div style=\"font-size: 0.75rem\">\n        <p>\n        This report was written by\n        <a href=\"https://github.com/richard-berg/cantori-attendance\">a bot</a>...\n        don't shoot the messenger!\n        </p>\n        <p>Data sources:</p>\n        <ul>\n            <li><a href=\"https://cantori.choirgenius.com/accounts/manage\">https://cantori.choirgenius.com/accounts/manage</a></li>\n            <li><a href=\"https://cantori.choirgenius.com/report/attendance_grid_report\">https://cantori.choirgenius.com/report/attendance_grid_report</a></li>\n            <li><a href=\"https://cantori.choirgenius.com/report/attendance_grid_forecast_report\">https://cantori.choirgenius.com/report/attendance_grid_forecast_report</a></li>\n            <li><a href=\"https://cantorinewyork.monday.com/boards/9192120251/views/195540167\">https://cantorinewyork.monday.com/boards/9192120251/views/195540167</a></li>\n            <li><a href=\"https://cantorinewyork.monday.com/boards/3767283316/views/111015403\">https://cantorinewyork.monday.com/boards/3767283316/views/111015403</a></li>\n        </ul>\n    </div>\n    "

/-- `report_utils._wrap_body`. -/
def wrap_body (body : String) : String :=
  "\n    <body style=\"font-size: 100%; margin: 0px;\">\n        <div style=\"width: 600px; padding: 1rem 1.5rem;\">\n\n            "
    ++ body
    ++ "\n\n            <br><hr>\n\n            " ++ footerHTML ++ "\n\n        </div>\n    </body>\n    "

/-! ## `attendance_report.py`

The attendance pipeline is embedded with typed rows: the input tables have the
fixed schemas produced by `monday.py` (roster) and `choirgenius.py`
(attendance grids), so the two outer merges of
`generate_attendance_report` (lines 50-53) are specialised to those schemas.
An absent side of an outer-joined row is `none`; reading any of its columns
yields NaN, exactly as in the pandas frame.
-/

/-- pandas merge-indicator values. -/
inductive Ind
  | leftOnly
  | rightOnly
  | both
deriving DecidableEq, Repr

/-- The string an indicator column holds (`left_only` / `right_only` / `both`). -/
def Ind.toVal : Ind → Val
  | .leftOnly => .str "left_only"
  | .rightOnly => .str "right_only"
  | .both => .str "both"

/-- An indicator column read from a row that may predate the merge that added
it (NaN on rows introduced by a later outer merge). -/
def indVal : Option Ind → Val
  | none => .na
  | some i => i.toVal

def optStrVal : Option String → Val
  | none => .na
  | some s => .str s

def optIntVal : Option Int → Val
  | none => .na
  | some n => .int n

/-- One row of the Monday.com roster table (`monday._parse_roster_item`):
fixed fields plus one nullable status per concert-date column. -/
structure RosterRow where
  name : String
  email : Option String := none
  voicePart : Option String := none
  chorusEmails : Option String := none
  color : Option String := none
  sortKey : Option Int := none
  status : List (CDate × Option String) := []
deriving DecidableEq, Repr

def RosterRow.statusAt (r : RosterRow) (dt : CDate) : Option String :=
  (r.status.lookup dt).getD none

/-- The roster DataFrame: its date-valued columns (`concerts`) plus rows. -/
structure RosterTable where
  concerts : List CDate
  rows : List RosterRow
deriving Repr

/-- One row of a ChoirGenius attendance grid (`choirgenius._parse_csv_export`):
Name plus one nullable Int32 mark per date column. -/
structure MarkRow where
  name : String
  marks : List (CDate × Option Int) := []
deriving DecidableEq, Repr

def MarkRow.markAt (r : MarkRow) (dt : CDate) : Option Int :=
  (r.marks.lookup dt).getD none

/-- An attendance grid DataFrame: its date columns plus rows. -/
structure MarkTable where
  dates : List CDate
  rows : List MarkRow
deriving Repr

/-- `attendance_report.py` line 35: the source compares the *bound method*
`current_nyc_date.weekday` (no call parentheses) with the int 3; in Python a
method object never equals an int, so the expression is False for every date.
The intended check is `pyWeekday current_nyc_date == 3`. -/
def todayIsThursdayAsWritten (_current_nyc_date : CDate) : Bool := false

/-- `attendance_report.py` line 36:
`worth_sending = today_is_thursday or most_recent_rehearsal == current_nyc_date`
(`None == date` is False in Python). -/
def worth_sending_attendance (past_rehearsals : List CDate) (current : CDate) : Bool :=
  todayIsThursdayAsWritten current ||
    (match listMax? past_rehearsals with
     | none => false
     | some d => d == current)

/-- Line 44: `actual_attendance[past_rehearsals].sum(axis=1)` (NaN skipped). -/
def attendedOf (past : List CDate) (a : MarkRow) : Int :=
  (past.map (fun dt => (a.markAt dt).getD 0)).sum

/-- Line 45: `len(past_rehearsals) - actual_attendance.Attended`. -/
def absencesActualOf (past : List CDate) (a : MarkRow) : Int :=
  (past.length : Int) - attendedOf past a

/-- Line 48: `(projected_attendance[future_rehearsals] == 0).sum(axis=1)`;
`== 0` is False on NaN cells, so only explicit 0 marks are counted. -/
def absencesProjectedOf (future : List CDate) (p : MarkRow) : Int :=
  ((future.map (fun dt => (optIntVal (p.markAt dt)).eq (.int 0))).count true : Nat)

/-- One row of the join built in lines 50-54: roster ⟕⟖ projected ⟕⟖ actual,
with the two indicator columns.  `projInd` is `none` (NaN) on rows introduced
by the second merge. -/
structure AJoin where
  rosterP : Option RosterRow
  projP : Option MarkRow
  projInd : Option Ind
  actP : Option MarkRow
  actInd : Ind
deriving DecidableEq, Repr

namespace AJoin

/-- The coalesced `Name` merge key (every row has one here: each merge is on `Name`). -/
def nameV (j : AJoin) : String :=
  match j.rosterP, j.projP, j.actP with
  | some r, _, _ => r.name
  | none, some p, _ => p.name
  | none, none, some a => a.name
  | none, none, none => ""

/-- `join[dt]` for a roster concert-date column. -/
def statusVal (j : AJoin) (dt : CDate) : Val :=
  match j.rosterP with
  | none => .na
  | some r => optStrVal (r.statusAt dt)

end AJoin

/-- Line 50: `roster.merge(projected_attendance, on="Name", how="outer",
indicator="projected")`. -/
def mergeRosterProjected (roster : List RosterRow) (proj : List MarkRow) :
    List (Option RosterRow × Option MarkRow × Ind) :=
  (roster.flatMap (fun r =>
    match proj.filter (fun p => p.name = r.name) with
    | [] => [(some r, none, Ind.leftOnly)]
    | ms => ms.map (fun p => (some r, some p, Ind.both))))
  ++ ((proj.filter (fun p => roster.all (fun r => r.name ≠ p.name))).map
      (fun p => (none, some p, Ind.rightOnly)))

def name1 : Option RosterRow × Option MarkRow × Ind → String
  | (some r, _, _) => r.name
  | (none, some p, _) => p.name
  | (none, none, _) => ""

/-- Lines 51-53: the second outer merge, against `actual_attendance`, with
indicator `actual`.  Rows new to this merge carry NaN in the `projected`
indicator column. -/
def attendanceJoin (roster : List RosterRow) (proj actual : List MarkRow) : List AJoin :=
  let j1 := mergeRosterProjected roster proj
  (j1.flatMap (fun t =>
    match actual.filter (fun a => a.name = name1 t) with
    | [] => [⟨t.1, t.2.1, some t.2.2, none, Ind.leftOnly⟩]
    | ms => ms.map (fun a => ⟨t.1, t.2.1, some t.2.2, some a, Ind.both⟩)))
  ++ ((actual.filter (fun a => j1.all (fun t => name1 t ≠ a.name))).map
      (fun a => ⟨none, none, none, some a, Ind.rightOnly⟩))

/-! Per-row versions of the boolean Series computed in lines 58-83.  The
attendance join has no `whole_name` column, so `_fill_and_sort` takes its
plain branch there; the filled display values are `fColor`, `fSortKey`,
`fEmail` below. -/

def fColor (j : AJoin) : String := ((j.rosterP.bind (·.color)).getD "black")

def fSortKey (j : AJoin) : Val :=
  match j.rosterP.bind (·.sortKey) with
  | some n => .int n
  | none => .inf

def fEmail (j : AJoin) : String := ((j.rosterP.bind (·.email)).getD "email-is-missing")

/-- Line 58: `join.projected != "right_only"` (NaN != str is True). -/
def on_monday_roster (j : AJoin) : Bool := (indVal j.projInd).ne (.str "right_only")

/-- Line 60: `join[cycle_to].isin(SINGING_STATES)`. -/
def singing_this_cycle (cycleTo : CDate) (j : AJoin) : Bool :=
  (j.statusVal cycleTo).isin SINGING_STATES

/-- Line 61: `join[cycle_to].isin(MAYBE_STATES)`. -/
def maybe_this_cycle (cycleTo : CDate) (j : AJoin) : Bool :=
  (j.statusVal cycleTo).isin MAYBE_STATES

/-- Line 63: `join.Attended > 0` (NaN > 0 is False). -/
def attended_at_least_one (past : List CDate) (j : AJoin) : Bool :=
  match j.actP with
  | none => false
  | some a => 0 < attendedOf past a

/-- Line 66: `other_cycles.isin(SINGING_STATES).any(axis=1) & ~singing_this_cycle`
where `other_cycles = join[concerts].drop(columns=cycle_to)`. -/
def other_cycles_yes (concerts : List CDate) (cycleTo : CDate) (j : AJoin) : Bool :=
  ((concerts.filter (fun c => c ≠ cycleTo)).any (fun dt => (j.statusVal dt).isin SINGING_STATES))
    && !(singing_this_cycle cycleTo j)

/-- Lines 67-69. -/
def other_cycles_maybe (concerts : List CDate) (cycleTo : CDate) (j : AJoin) : Bool :=
  ((concerts.filter (fun c => c ≠ cycleTo)).any (fun dt => (j.statusVal dt).isin MAYBE_STATES))
    && !(singing_this_cycle cycleTo j || other_cycles_yes concerts cycleTo j)

/-- Line 70. -/
def gone (concerts : List CDate) (cycleTo : CDate) (j : AJoin) : Bool :=
  on_monday_roster j
    && !(singing_this_cycle cycleTo j || other_cycles_yes concerts cycleTo j
          || other_cycles_maybe concerts cycleTo j)

/-- Line 72: `join["Chorus Emails"] == "Yes"`. -/
def active_emails (j : AJoin) : Bool :=
  (optStrVal (j.rosterP.bind (·.chorusEmails))).eq (.str "Yes")

/-- Line 56: `join.Absences_actual + join.Absences_projected` (NaN-propagating). -/
def absencesTotalVal (past future : List CDate) (j : AJoin) : Val :=
  match j.actP, j.projP with
  | some a, some p => .int (absencesActualOf past a + absencesProjectedOf future p)
  | _, _ => .na

/-- Line 74: `singing_this_cycle & (join.Absences_total >= 3)` (False on NaN). -/
def relevant_absences (past future : List CDate) (cycleTo : CDate) (j : AJoin) : Bool :=
  singing_this_cycle cycleTo j
    && (match absencesTotalVal past future j with
        | .int n => 3 ≤ n
        | _ => false)

/-- Lines 76-81: `(join[f"…_actual"] == 1).fillna(False)` when a most recent
rehearsal exists, else the constant-False series of the `else` branch. -/
def present_tonight (mostRecent : Option CDate) (j : AJoin) : Bool :=
  match mostRecent with
  | none => false
  | some dt => (optIntVal (j.actP.bind (·.markAt dt))).eq (.int 1)

/-- Line 78 (`singing_this_cycle & ~present_tonight`) when a most recent
rehearsal exists; line 81 (the constant-False series) otherwise. -/
def absent_tonight (mostRecent : Option CDate) (cycleTo : CDate) (j : AJoin) : Bool :=
  match mostRecent with
  | none => false
  | some dt => singing_this_cycle cycleTo j && !(present_tonight (some dt) j)

/-- Line 79 / 81: `join[f"…_projected"] == 0`. -/
def marked_absent_tonight (mostRecent : Option CDate) (j : AJoin) : Bool :=
  match mostRecent with
  | none => false
  | some dt => (optIntVal (j.projP.bind (·.markAt dt))).eq (.int 0)

/-- Line 83: `marked_absent.fillna(False).map(lambda x: "Marked in CG" if x else "Unexcused?")`. -/
def excusedStr (mostRecent : Option CDate) (j : AJoin) : String :=
  if marked_absent_tonight mostRecent j then "Marked in CG" else "Unexcused?"

/-- The `sort_values(["sort_key", "Name"])` order of `_fill_and_sort`, on the
typed joined rows (missing sort keys have been filled with `inf`). -/
def ajLe (a b : AJoin) : Prop :=
  (if fSortKey a = fSortKey b then decide (a.nameV ≤ b.nameV)
   else valLeB (fSortKey a) (fSortKey b)) = true

instance : DecidableRel ajLe := fun _ _ => by unfold ajLe; infer_instance

/-- Projection of a joined-and-filled row onto the columns the rendering layer
reads (Name, Email, Voice Part, color, sort_key, Excused, the absence columns,
and the future projected-rehearsal date columns). -/
def ajToRow (past future : List CDate) (mostRecent : Option CDate) (j : AJoin) : Row :=
  [(.s "Name", .str j.nameV),
   (.s "Email", .str (fEmail j)),
   (.s "Voice Part", optStrVal (j.rosterP.bind (·.voicePart))),
   (.s "color", .str (fColor j)),
   (.s "sort_key", fSortKey j),
   (.s "Excused", .str (excusedStr mostRecent j)),
   (.s "Absences_actual", j.actP.elim .na (fun a => .int (absencesActualOf past a))),
   (.s "Absences_projected", j.projP.elim .na (fun p => .int (absencesProjectedOf future p))),
   (.s "Absences_total", absencesTotalVal past future j)]
  ++ future.map (fun dt => (.d dt, optIntVal (j.projP.bind (·.markAt dt))))

def ajCols (future : List CDate) : List Col :=
  [.s "Name", .s "Email", .s "Voice Part", .s "color", .s "sort_key", .s "Excused",
   .s "Absences_actual", .s "Absences_projected", .s "Absences_total"]
  ++ future.map .d

def ajDFL (past future : List CDate) (mostRecent : Option CDate) (js : List AJoin) : DFL :=
  { cols := ajCols future, rows := js.map (ajToRow past future mostRecent) }

/-- Everything of the attendance e-mail body after the literal
`<h1>This Week (…)</h1>` header (the rest of the f-string of lines 96-179). -/
def attendanceBodyRest (concerts : List CDate) (past future : List CDate)
    (mostRecent : Option CDate) (firstRehearsal cycleTo : CDate) (joined : List AJoin) :
    String :=
  let sDFL := fun (js : List AJoin) => ajDFL past future mostRecent js
  let singingJs := joined.filter (fun j => singing_this_cycle cycleTo j)
  let maybeJs := joined.filter (fun j => maybe_this_cycle cycleTo j)
  let absentJs := joined.filter (fun j => absent_tonight mostRecent cycleTo j)
  let relevantJs := joined.filter (fun j => relevant_absences past future cycleTo j)
  let ocyJs := joined.filter (fun j => other_cycles_yes concerts cycleTo j)
  let ocmJs := joined.filter (fun j => other_cycles_maybe concerts cycleTo j)
  let goneJs := joined.filter (fun j => gone concerts cycleTo j)
  let subtotals : List (String × List Bool) :=
    [("Present", singingJs.map (fun j => present_tonight mostRecent j)),
     ("Absent", singingJs.map (fun j => absent_tonight mostRecent cycleTo j))]
  let nextRehearsalStr :=
    match listMin? future with
    | some dt => dt.toISO
    | none => "N/A"
  let nextWeek :=
    match listMin? future with
    | some dt => projected_absence_details (sDFL singingJs) (.d dt)
    | none => "<p>No more rehearsals this cycle!</p>"
  format_subtotals_table (sDFL singingJs) subtotals
  ++ "\n\n    <h2>Absence details:</h2>\n    "
  ++ tableHTML (sDFL absentJs) ["Name", "Excused", "Voice Part"] false false
  ++ "\n\n    <p>"
  ++ actionItem ("<b>Maggie/Attendance</b>: please confirm that folks listed above were truly absent, and/or whether they told us in advance. <b>Janara</b>: once Maggie has confirmed, please make any necessary corrections to today's attendance in ChoirGenius, and follow up with those who were AWOL.")
  ++ "</p>\n\n    <br><hr>\n\n    <h1>Next Rehearsal (" ++ nextRehearsalStr ++ ")</h1>\n    "
  ++ nextWeek
  ++ "\n\n    <br><hr>\n\n    <h1>This Cycle (" ++ firstRehearsal.toISO ++ " to "
  ++ cycleTo.toISO ++ ")</h1>\n\n    <h2><b>"
  ++ toString (joined.countP (fun j => singing_this_cycle cycleTo j = true))
  ++ "</b> singers have said they'll participate:</h2>\n    "
  ++ format_subtotals_table (sDFL singingJs)
       [(cycleTo.monthName ++ " Roster", singingJs.map (fun j => singing_this_cycle cycleTo j))]
  ++ "\n\n    <h2>Plus, <b>"
  ++ toString (joined.countP (fun j => maybe_this_cycle cycleTo j = true))
  ++ "</b> others are still listed as \"maybe\":</h2>\n    "
  ++ format_singers_indented (sDFL maybeJs)
  ++ "\n    <p>\"Maybes\" do not count toward the Roster stats above, nor to the Absence Totals below.</p>\n    <p>\n    "
  ++ actionItem "<b>Janara</b>: please confirm their intentions, and move them to \"Yes\" or \"No\" ASAP."
  ++ "\n    </p>\n\n    <h2>Absence Totals:</h2>\n    "
  ++ format_absence_totals (sDFL relevantJs)
  ++ "\n    <p>Singers with 3 or more absences are subject to make-up sessions, or being asked to sit out.</p>\n    <p>\n    "
  ++ actionItem "<b>Section Leaders</b>: please determine the musical needs of the affected singers, and make the necessary arrangements with Mark (to assess preparedness) or Janara (to remove them from the current cycle)."
  ++ "\n    </p>\n\n    <br><hr>\n\n    <h1>Looking Ahead</h1>\n\n    <h2><b>"
  ++ toString (joined.countP (fun j =>
        (other_cycles_yes concerts cycleTo j || other_cycles_maybe concerts cycleTo j) = true))
  ++ "</b> singers are sitting out this cycle:</h2>\n    <ul>\n        <li>\n            <p><b>"
  ++ toString (joined.countP (fun j => other_cycles_yes concerts cycleTo j = true))
  ++ "</b> said they'd be back later this season:</p>\n            "
  ++ format_singers_indented (sDFL ocyJs)
  ++ "\n        </li>\n        <li>\n            <p><b>"
  ++ toString (joined.countP (fun j => other_cycles_maybe concerts cycleTo j = true))
  ++ "</b> said \"maybe\":</p>\n            "
  ++ format_singers_indented (sDFL ocmJs)
  ++ "\n        </li>\n    </ul>\n\n    <h2>The rest ("
  ++ toString (joined.countP (fun j => gone concerts cycleTo j = true))
  ++ ") are not expected back this season:</h2>\n    "
  ++ format_singers_indented (sDFL goneJs)
  ++ "\n\n    <br><hr>\n\n    <h1>Consistency Checks</h1>\n\n    <p>"
  ++ actionItem "<b>Janara/Attendance</b>: please double-check that these make sense"
  ++ "\n    (i.e. aren't the result of inconsistent data entry in ChoirGenius vs Monday.com)</p>\n\n    <ul>\n\n    <li>\n    <p>Currently getting chorus emails, yet aren't on the concert roster for this cycle:</p>\n    "
  ++ format_singers_indented
       (sDFL (joined.filter (fun j => active_emails j && !(singing_this_cycle cycleTo j))))
  ++ "\n    </li>\n\n    <li>\n    <p>On the current concert roster, yet aren't getting emails:</p>\n    "
  ++ format_singers_indented
       (sDFL (joined.filter (fun j => singing_this_cycle cycleTo j && !(active_emails j))))
  ++ "\n    </li>\n\n    <li>\n    <p>Have attended rehearsal(s) this cycle, yet aren't on the current concert roster:</p>\n    "
  ++ format_singers_indented
       (sDFL (joined.filter (fun j => attended_at_least_one past j && !(singing_this_cycle cycleTo j))))
  ++ "\n    </li>\n\n    </ul>\n    "

/-- The attendance e-mail body (the f-string of lines 96-179), starting with
the `This Week` header, which is rendered unconditionally — when no rehearsal
has happened yet it interpolates Python `None`. -/
def attendanceBody (concerts : List CDate) (past future : List CDate)
    (mostRecent : Option CDate) (firstRehearsal cycleTo : CDate) (joined : List AJoin) :
    String :=
  "\n    <h1>This Week (" ++ pyStrOptDate mostRecent ++ ")</h1>\n    "
    ++ attendanceBodyRest concerts past future mostRecent firstRehearsal cycleTo joined

/-- `attendance_report.generate_attendance_report`. -/
def generate_attendance_report (actual_attendance projected_attendance : MarkTable)
    (roster : RosterTable) (current_nyc_date cycle_from cycle_to : CDate) :
    EmailMsg × Bool :=
  let concerts := roster.concerts
  let past_rehearsals := actual_attendance.dates
  let first_rehearsal := (listMin? past_rehearsals).getD cycle_from
  let most_recent_rehearsal := listMax? past_rehearsals
  let worth_sending := worth_sending_attendance past_rehearsals current_nyc_date
  let future_rehearsals := projected_attendance.dates.filter (fun c =>
    match most_recent_rehearsal with
    | none => true
    | some m => m < c)
  let joined := (attendanceJoin roster.rows projected_attendance.rows
    actual_attendance.rows).insertionSort ajLe
  let body := attendanceBody concerts past_rehearsals future_rehearsals
    most_recent_rehearsal first_rehearsal cycle_to joined
  let email : EmailMsg :=
    { subject := "Attendance Report for " ++ pyStrOptDate most_recent_rehearsal
      body := wrap_body body
      toAddrs := ATTENDANCE_EMAILS }
  (email, worth_sending)

/-! ## The in-place column writes of the report generators (frame effect)

`generate_attendance_report` (lines 44-48) and `generate_consistency_report`
(lines 38-43) assign derived columns *into the caller's* DataFrames.  The
state-passing embeddings below return each input table as it stands after
those statements. -/

/-- Lines 44-48 of `attendance_report.py`:
`actual_attendance["Attended"] = …`, `actual_attendance["Absences"] = …`,
`projected_attendance["Absences"] = …`. -/
def attendanceDeriveColumns (actual_attendance projected_attendance : DFL) : DFL × DFL :=
  let past := actual_attendance.dateCols
  let mostRecent := listMax? past
  let future := projected_attendance.dateCols.filter (fun c =>
    match mostRecent with
    | none => true
    | some m => m < c)
  let a1 := actual_attendance.setCol (.s "Attended")
    (actual_attendance.rows.map (fun r =>
      .int ((past.map (fun dt => (getV r (.d dt)).toIntD)).sum)))
  let a2 := a1.setCol (.s "Absences")
    (a1.rows.map (fun r => .int ((past.length : Int) - (getV r (.s "Attended")).toIntD)))
  let p1 := projected_attendance.setCol (.s "Absences")
    (projected_attendance.rows.map (fun r =>
      .int (((future.map (fun dt => (getV r (.d dt)).eq (.int 0))).count true : Nat))))
  (a2, p1)

/-- Lines 37-43 of `consistency_report.py`:
`projected_concert_attendance["Concerts_Marked_Absent"] = …` and
`…["Concerts_Marked_Singing"] = …`. -/
def consistencyDeriveColumns (projected_concert_attendance : DFL) : DFL :=
  let concerts := projected_concert_attendance.dateCols
  let c1 := projected_concert_attendance.setCol (.s "Concerts_Marked_Absent")
    (projected_concert_attendance.rows.map (fun r =>
      .int (((concerts.map (fun dt => (getV r (.d dt)).eq (.int 0))).count true : Nat))))
  let c2 := c1.setCol (.s "Concerts_Marked_Singing")
    (c1.rows.map (fun r =>
      .int (((concerts.map (fun dt => (getV r (.d dt)).eq (.int 1))).count true : Nat))))
  c2

/-! ## `function_app._determine_concert_cycle` -/

/-- The loop of `_determine_concert_cycle` (lines 193-199): walk the sorted
concert dates, returning the first window `cycle_from ≤ today ≤ cycle_to`,
advancing `cycle_from` to the day after each rejected concert. -/
def determine_concert_cycle_go (today : CDate) :
    CDate → List CDate → Except String (CDate × CDate)
  | _, [] => .error "Today isn't part of the season (as defined by Monday.com roster)"
  | cycleFrom, c :: rest =>
    if cycleFrom ≤ today ∧ today ≤ c then .ok (cycleFrom, c)
    else determine_concert_cycle_go today (CDate.nextDay c) rest

/-- `sorted(d for d in roster.columns if isinstance(d, date))`. -/
def concertDatesSorted (cols : List Col) : List CDate :=
  (cols.filterMap (fun c => match c with | .d dt => some dt | .s _ => none)).insertionSort
    (· ≤ ·)

/-- `function_app._determine_concert_cycle` (lines 188-199). -/
def determine_concert_cycle (cols : List Col) (today : CDate) :
    Except String (CDate × CDate) :=
  match concertDatesSorted cols with
  | [] => .error "Monday.com roster has no concert cycles defined"
  | c0 :: rest => determine_concert_cycle_go today ⟨c0.y, 9, 1⟩ (c0 :: rest)

/-- The list of cycle windows the loop walks: `(Sep 1, c₀), (c₀+1, c₁), …`.
Spec-side description of the same construction. -/
def cyclesOf (cfrom : CDate) : List CDate → List (CDate × CDate)
  | [] => []
  | c :: rest => (cfrom, c) :: cyclesOf (CDate.nextDay c) rest

/-! ## `consistency_report.py`

Typed embedding of `generate_consistency_report`.  Input schemas: the Monday
roster (as above), the audition-candidates board (`monday.get_monday_auditions`:
columns Name, Group, EMAIL, RESULT), the portal's active-member list
(`choirgenius.get_active`: columns whole_name, primary_email, voice_part), and
the projected concert-attendance grid (Name plus concert-date columns). -/

/-- One row of the audition-candidates board. -/
structure CandRow where
  name : String
  group : String
  email : Option String := none
  result : Option String := none
deriving DecidableEq, Repr

/-- One row of `ChoirGenius.get_active` (the portal-membership table). -/
structure CgRow where
  wholeName : String
  primaryEmail : Option String := none
  voicePart : Option String := none
deriving DecidableEq, Repr

/-- After `join = roster.merge(candidates, on="Name", …, indicator="audition")`. -/
structure CJoin1 where
  rosterP : Option RosterRow
  candP : Option CandRow
  audInd : Ind
deriving DecidableEq, Repr

def CJoin1.nameV (t : CJoin1) : String :=
  match t.rosterP, t.candP with
  | some r, _ => r.name
  | none, some c => c.name
  | none, none => ""

/-- Line 34. -/
def cJoin1 (roster : List RosterRow) (cands : List CandRow) : List CJoin1 :=
  (roster.flatMap (fun r =>
    match cands.filter (fun c => c.name = r.name) with
    | [] => [⟨some r, none, Ind.leftOnly⟩]
    | ms => ms.map (fun c => ⟨some r, some c, Ind.both⟩)))
  ++ ((cands.filter (fun c => roster.all (fun r => r.name ≠ c.name))).map
      (fun c => ⟨none, some c, Ind.rightOnly⟩))

/-- After line 35: `join.merge(cg_active, left_on="Name", right_on="whole_name",
…, indicator="cg")`.  `nameV` is the `Name` column, which is NaN on
portal-only rows (`left_on`/`right_on` keeps both key columns). -/
structure CJoin2 where
  nameV : Option String
  rosterP : Option RosterRow
  candP : Option CandRow
  audInd : Option Ind
  cgP : Option CgRow
  cgInd : Ind
deriving DecidableEq, Repr

def cJoin2 (j1 : List CJoin1) (cg : List CgRow) : List CJoin2 :=
  (j1.flatMap (fun t =>
    match cg.filter (fun g => g.wholeName = t.nameV) with
    | [] => [⟨some t.nameV, t.rosterP, t.candP, some t.audInd, none, Ind.leftOnly⟩]
    | ms => ms.map (fun g => ⟨some t.nameV, t.rosterP, t.candP, some t.audInd, some g, Ind.both⟩)))
  ++ ((cg.filter (fun g => j1.all (fun t => t.nameV ≠ g.wholeName))).map
      (fun g => ⟨none, none, none, none, some g, Ind.rightOnly⟩))

/-- After lines 44-49: the final merge against
`projected_concert_attendance[["Name", "Concerts_Marked_Absent",
"Concerts_Marked_Singing"]]`, indicator `concert_attendance`. -/
structure CJoin where
  nameV : Option String
  rosterP : Option RosterRow
  candP : Option CandRow
  audInd : Option Ind
  cgP : Option CgRow
  cgInd : Option Ind
  cmA : Option Int
  cmS : Option Int
  caInd : Ind
deriving DecidableEq, Repr

/-- A concert grid row's explicit-absent count (as in `pcaDerived`). -/
def cmaOf (dates : List CDate) (p : MarkRow) : Int :=
  (((dates.map (fun dt => (optIntVal (p.markAt dt)).eq (.int 0))).count true : Nat) : Int)

/-- A concert grid row's explicit-present count. -/
def cmsOf (dates : List CDate) (p : MarkRow) : Int :=
  (((dates.map (fun dt => (optIntVal (p.markAt dt)).eq (.int 1))).count true : Nat) : Int)

/-- Lines 37-45 applied to the concert grid: the two explicit-mark counts
merged in (`(name, Concerts_Marked_Absent, Concerts_Marked_Singing)`). -/
def pcaDerived (pca : MarkTable) : List (String × Int × Int) :=
  pca.rows.map (fun r => (r.name, cmaOf pca.dates r, cmsOf pca.dates r))

def cJoin3 (j2 : List CJoin2) (pca : List (String × Int × Int)) : List CJoin :=
  (j2.flatMap (fun t =>
    match pca.filter (fun p => some p.1 = t.nameV) with
    | [] => [⟨t.nameV, t.rosterP, t.candP, t.audInd, t.cgP, some t.cgInd, none, none, Ind.leftOnly⟩]
    | ms => ms.map (fun p =>
        ⟨t.nameV, t.rosterP, t.candP, t.audInd, t.cgP, some t.cgInd, some p.2.1, some p.2.2, Ind.both⟩)))
  ++ ((pca.filter (fun p => j2.all (fun t => t.nameV ≠ some p.1))).map
      (fun p => ⟨some p.1, none, none, none, none, none, some p.2.1, some p.2.2, Ind.rightOnly⟩))

namespace CJoin

/-- `join[cycle_to]` (a roster concert-status column). -/
def statusVal (j : CJoin) (dt : CDate) : Val :=
  match j.rosterP with
  | none => .na
  | some r => optStrVal (r.statusAt dt)

/-- Post-fill `Name` (`df.Name.fillna(df.whole_name)`). -/
def nameF (j : CJoin) : Option String := j.nameV <|> (j.cgP.map (·.wholeName))

/-- Post-fill `Email` (`df.Email.fillna(df.EMAIL)`): the fill source is the
audition board's EMAIL column — not the portal's `primary_email`. -/
def emailF (j : CJoin) : Option String := (j.rosterP.bind (·.email)) <|> (j.candP.bind (·.email))

/-- Post-fill `Voice Part` (`df["Voice Part"].fillna(df.voice_part)`). -/
def voiceF (j : CJoin) : Option String := (j.rosterP.bind (·.voicePart)) <|> (j.cgP.bind (·.voicePart))

def colorF (j : CJoin) : String := (j.rosterP.bind (·.color)).getD "black"

def sortKeyF (j : CJoin) : Val :=
  match j.rosterP.bind (·.sortKey) with
  | some n => .int n
  | none => .inf

end CJoin

/-- Line 53: `(join.Group == season) & (join.RESULT == "Accepted")`. -/
def acceptedC (season : String) (j : CJoin) : Bool :=
  (optStrVal (j.candP.map (·.group))).eq (.str season)
    && (optStrVal (j.candP.bind (·.result))).eq (.str "Accepted")

/-- Line 54. -/
def candidates_missing_from_roster (season : String) (j : CJoin) : Bool :=
  acceptedC season j && (indVal j.audInd).eq (.str "right_only")

/-- Line 56: `join.cg == "left_only"`. -/
def not_in_cg (j : CJoin) : Bool := (indVal j.cgInd).eq (.str "left_only")

/-- Line 57: `join[cycle_to].isin(SINGING_STATES + MAYBE_STATES)`. -/
def might_sing_this_cycle (cycleTo : CDate) (j : CJoin) : Bool :=
  (j.statusVal cycleTo).isin (SINGING_STATES ++ MAYBE_STATES)

/-- Line 58. -/
def roster_missing_from_cg (cycleTo : CDate) (j : CJoin) : Bool :=
  might_sing_this_cycle cycleTo j && not_in_cg j

/-- Lines 60-62. -/
def cg_missing_from_roster (j : CJoin) : Bool :=
  (indVal j.cgInd).eq (.str "right_only")
    || ((indVal j.audInd).eq (.str "right_only") && (indVal j.cgInd).eq (.str "both"))

/-- Line 67: `join.Concerts_Marked_Absent == len(concerts)`. -/
def marked_no (nConcerts : Nat) (j : CJoin) : Bool :=
  (optIntVal j.cmA).eq (.int nConcerts)

/-- Line 68: `(join.Concerts_Marked_Absent > 0) & ~marked_no`. -/
def markedSomeButNotAll (nConcerts : Nat) (j : CJoin) : Bool :=
  (match j.cmA with
   | some a => decide (0 < a)
   | none => false) && !(marked_no nConcerts j)

/-- Line 69. -/
def marked_yes (nConcerts : Nat) (j : CJoin) : Bool :=
  (optIntVal j.cmS).eq (.int nConcerts)

/-- Line 70: `(join.Concerts_Marked_Absent + join.Concerts_Marked_Singing) > 0`
(a NaN-propagating sum; `NaN > 0` is False). -/
def marked_something (j : CJoin) : Bool :=
  match j.cmA, j.cmS with
  | some a, some s => decide (0 < a + s)
  | _, _ => false

/-- Line 71. -/
def marked_no_but_might_sing (nConcerts : Nat) (cycleTo : CDate) (j : CJoin) : Bool :=
  marked_no nConcerts j && might_sing_this_cycle cycleTo j

/-- Line 72 (source name `marked_partial_but_not_partial`). -/
def markedSomeButRosterNotPartial (nConcerts : Nat) (cycleTo : CDate) (j : CJoin) : Bool :=
  markedSomeButNotAll nConcerts j && !((j.statusVal cycleTo).isin PARTIAL_STATES)

/-- Lines 73-75 (source name `partial_roster_but_marked_nonpartial`). -/
def rosterPartialButMarkedOtherwise (nConcerts : Nat) (cycleTo : CDate) (j : CJoin) : Bool :=
  (j.statusVal cycleTo).isin PARTIAL_STATES && !(markedSomeButNotAll nConcerts j)
    && marked_something j

/-- Line 76. -/
def marked_yes_but_not_singing (nConcerts : Nat) (cycleTo : CDate) (j : CJoin) : Bool :=
  marked_yes nConcerts j && (j.statusVal cycleTo).isin (NO_STATES ++ MAYBE_STATES)

/-- Projection of a filled consistency-join row onto the columns the mismatch
tables and name lists read. -/
def cjToRow (j : CJoin) : Row :=
  [(.s "Name", optStrVal j.nameF),
   (.s "Email", optStrVal j.emailF),
   (.s "Voice Part", optStrVal j.voiceF),
   (.s "color", .str j.colorF),
   (.s "sort_key", j.sortKeyF),
   (.s "cg", indVal j.cgInd),
   (.s "primary_email", optStrVal (j.cgP.bind (·.primaryEmail))),
   (.s "voice_part", optStrVal (j.cgP.bind (·.voicePart)))]

def cjCols : List Col :=
  [.s "Name", .s "Email", .s "Voice Part", .s "color", .s "sort_key", .s "cg",
   .s "primary_email", .s "voice_part"]

def cjDFL (js : List CJoin) : DFL := { cols := cjCols, rows := js.map cjToRow }

/-- The `sort_values(["sort_key", "Name"])` order on consistency-join rows. -/
def cjLe (a b : CJoin) : Prop :=
  (if a.sortKeyF = b.sortKeyF
   then valLeB (optStrVal a.nameF) (optStrVal b.nameF)
   else valLeB a.sortKeyF b.sortKeyF) = true

instance : DecidableRel cjLe := fun _ _ => by unfold cjLe; infer_instance

/-- The joined, filled and sorted frame of `generate_consistency_report`
(lines 34-51). -/
def consistencyJoin (roster : List RosterRow) (cands : List CandRow)
    (cg : List CgRow) (pca : MarkTable) : List CJoin :=
  (cJoin3 (cJoin2 (cJoin1 roster cands) cg) (pcaDerived pca)).insertionSort cjLe

/-- Line 78-90: `worth_sending = any([...])`. -/
def worth_sending_consistency (joined : List CJoin) (season : String)
    (nConcerts : Nat) (cycleTo : CDate) : Bool :=
  let email_mismatch := format_mismatch_table (cjDFL joined) "Email" "primary_email"
  let voice_mismatch := format_mismatch_table (cjDFL joined) "Voice Part" "voice_part"
  [decide (0 < joined.countP (fun j => candidates_missing_from_roster season j = true)),
   decide (0 < joined.countP (fun j => cg_missing_from_roster j = true)),
   decide (0 < joined.countP (fun j => roster_missing_from_cg cycleTo j = true)),
   decide (email_mismatch ≠ "None"),
   decide (voice_mismatch ≠ "None"),
   decide (0 < joined.countP (fun j => marked_no_but_might_sing nConcerts cycleTo j = true)),
   decide (0 < joined.countP (fun j => markedSomeButRosterNotPartial nConcerts cycleTo j = true)),
   decide (0 < joined.countP (fun j => marked_yes_but_not_singing nConcerts cycleTo j = true)),
   decide (0 < joined.countP (fun j => rosterPartialButMarkedOtherwise nConcerts cycleTo j = true))
  ].any id

/-- The consistency e-mail body (f-string of lines 93-163). -/
def consistencyBody (joined : List CJoin) (season : String) (nConcerts : Nat)
    (cycleTo : CDate) : String :=
  let fsi := fun (p : CJoin → Bool) => format_singers_indented (cjDFL (joined.filter p))
  let email_mismatch := format_mismatch_table (cjDFL joined) "Email" "primary_email"
  let voice_mismatch := format_mismatch_table (cjDFL joined) "Voice Part" "voice_part"
  "\n    <section>\n    <h1>Monday.com Roster Issues</h1>\n    <p>These singers:</p>\n    <ul>\n        <li>Cannot receive chorus emails</li>\n        <li>Won't appear in Attendance reports, even if marked \"present\" in ChoirGenius</li>\n    </ul>\n\n    <h2>Audition status 'Accepted', but not in Roster</h2>\n    "
  ++ fsi (fun j => candidates_missing_from_roster season j)
  ++ "\n\n    <h2>ChoirGenius 'Active', but not in Roster</h2>\n    "
  ++ fsi cg_missing_from_roster
  ++ "\n    </section>\n\n    <br><hr>\n\n    <section>\n    <h1>ChoirGenius Issues</h1>\n    <p>These singers:</p>\n    <ul>\n        <li>Cannot be marked as Present at rehearsals</li>\n        <li>Cannot download music or view the calendar</li>\n    </ul>\n\n    <h2>On the "
  ++ cycleTo.monthName
  ++ " roster*, but not 'Active' in CG</h2>\n    "
  ++ fsi (fun j => roster_missing_from_cg cycleTo j)
  ++ "\n    <p style=\"font-size: 0.75rem\">*including \"Maybes\"</p>\n    </section>\n\n    <br><hr>\n\n    <section>\n    <h1>Concert Attendance Issues</h1>\n    <p>These singers have explicitly marked themselves as Present/Absent for concert events in ChoirGenius,\n    in a way that doesn't line up with our Monday roster.</p>\n\n    <h2>Marked themself 'Absent' for all "
  ++ cycleTo.monthName
  ++ " concerts, but appear on the roster*</h2>\n    "
  ++ fsi (fun j => marked_no_but_might_sing nConcerts cycleTo j)
  ++ "\n\n    <h2>Marked themself 'Absent' for <i>some</i> "
  ++ cycleTo.monthName
  ++ " concerts, but roster status is not 'Partial'</h2>\n    "
  ++ fsi (fun j => markedSomeButRosterNotPartial nConcerts cycleTo j)
  ++ "\n\n    <h2>Marked themself 'Present' for all "
  ++ cycleTo.monthName
  ++ " concerts, but roster status is not 'Yes'</h2>\n    "
  ++ fsi (fun j => marked_yes_but_not_singing nConcerts cycleTo j)
  ++ "\n\n    <h2>Roster status is 'Partial', but marked something else for "
  ++ cycleTo.monthName
  ++ " concerts</h2>\n    "
  ++ fsi (fun j => rosterPartialButMarkedOtherwise nConcerts cycleTo j)
  ++ "\n\n    <p style=\"font-size: 0.75rem\">*including \"Maybes\"</p>\n    </section>\n\n    <br><hr>\n\n    <section>\n    <h1>Data Mismatches</h1>\n    <p>Depending which system is correct, these singers might:</p>\n    <ul>\n        <li>Want chorus emails sent to a different address</li>\n        <li>Be on the wrong section email list</li>\n        <li>Have everything functionally ok, but be confused by what they see in ChoirGenius</li>\n    </ul>\n\n    <h2>Email address mismatch</h2>\n    "
  ++ email_mismatch
  ++ "\n\n    <h2>Voice part mismatch</h2>\n    "
  ++ voice_mismatch
  ++ "\n    </section>\n    "

/-- `consistency_report.generate_consistency_report`.  `current_nyc_time_str`
stands for the already-formatted `strftime` timestamp. -/
def generate_consistency_report (roster : RosterTable) (candidates : List CandRow)
    (cg_active : List CgRow) (projected_concert_attendance : MarkTable)
    (season : String) (cycle_to : CDate) (current_nyc_time_str : String) :
    EmailMsg × Bool :=
  let joined := consistencyJoin roster.rows candidates cg_active projected_concert_attendance
  let nConcerts := projected_concert_attendance.dates.length
  let worth_sending := worth_sending_consistency joined season nConcerts cycle_to
  let subject := "ChoirGenius vs Monday.com consistency check failed! (as of "
    ++ current_nyc_time_str ++ ")"
  let email : EmailMsg :=
    { subject := subject
      body := wrap_body (consistencyBody joined season nConcerts cycle_to)
      toAddrs := CONSISTENCY_EMAILS }
  (email, worth_sending)

/-- A singer's self-reported concert marks line up with their roster status
`s` for the cycle: none of the four concert-attendance discrepancies of
lines 67-76 can fire. -/
def marksAgreeC (dates : List CDate) (s : Val) (p : MarkRow) : Prop :=
  ¬ (cmaOf dates p = (dates.length : Int)
      ∧ s.isin (SINGING_STATES ++ MAYBE_STATES) = true)
  ∧ ((0 < cmaOf dates p ∧ ¬ cmaOf dates p = (dates.length : Int)) →
      s.isin PARTIAL_STATES = true)
  ∧ (s.isin PARTIAL_STATES = true → 0 < cmaOf dates p + cmsOf dates p →
      (0 < cmaOf dates p ∧ ¬ cmaOf dates p = (dates.length : Int)))
  ∧ ¬ (cmsOf dates p = (dates.length : Int)
      ∧ s.isin (NO_STATES ++ MAYBE_STATES) = true)

/-- The two systems agree exactly on overlapping fields and membership (the
round-trip hypothesis of the spec): accepted candidates of the season appear
on the roster; every portal-active member is on the roster and vice versa for
everyone who might sing this cycle; e-mail and voice part agree (and are
present) wherever a roster row matches a portal row; and every concert
grid row belongs to a roster singer whose marks line up with their status. -/
def consistencyAgrees (roster : List RosterRow) (cands : List CandRow)
    (cg : List CgRow) (pca : MarkTable) (season : String) (cycleTo : CDate) : Prop :=
  (∀ c ∈ cands, c.group = season → c.result = some "Accepted" →
      ∃ r ∈ roster, r.name = c.name)
  ∧ (∀ g ∈ cg, ∃ r ∈ roster, r.name = g.wholeName)
  ∧ (∀ r ∈ roster,
      (optStrVal (r.statusAt cycleTo)).isin (SINGING_STATES ++ MAYBE_STATES) = true →
      ∃ g ∈ cg, g.wholeName = r.name)
  ∧ (∀ r ∈ roster, ∀ g ∈ cg, g.wholeName = r.name →
      ∃ e, r.email = some e ∧ g.primaryEmail = some e)
  ∧ (∀ r ∈ roster, ∀ g ∈ cg, g.wholeName = r.name →
      ∃ v, r.voicePart = some v ∧ g.voicePart = some v)
  ∧ (∀ p ∈ pca.rows, ∃ r ∈ roster, r.name = p.name)
  ∧ (∀ p ∈ pca.rows, ∀ r ∈ roster, r.name = p.name →
      marksAgreeC pca.dates (optStrVal (r.statusAt cycleTo)) p)

/-! ## Concrete fixtures used by witnesses and counterexamples -/

def ct0 : CDate := ⟨2025, 12, 14⟩

def aliceR : RosterRow :=
  { name := "Alice", email := some "a@x", voicePart := some "Soprano",
    chorusEmails := some "Yes", color := some "red", sortKey := some 1,
    status := [(ct0, some "Yes")] }

def rosterT : RosterTable := { concerts := [ct0], rows := [aliceR] }

def emptyMarks : MarkTable := { dates := [], rows := [] }

/-- Actual-attendance table whose single past rehearsal (2025-10-14) is not
2025-10-16 (which is a Thursday). -/
def actualThu : MarkTable :=
  { dates := [⟨2025, 10, 14⟩], rows := [⟨"Alice", [(⟨2025, 10, 14⟩, some 1)]⟩] }

def cgAliceOk : List CgRow := [⟨"Alice", some "a@x", some "Soprano"⟩]

def pcaAliceOk : MarkTable := { dates := [ct0], rows := [⟨"Alice", [(ct0, some 1)]⟩] }

/-- A joined row that is on the Monday roster (projected indicator `left_only`). -/
def jOnRoster : AJoin := ⟨some aliceR, none, some Ind.leftOnly, none, Ind.leftOnly⟩

def d61 : CDate := ⟨2025, 11, 4⟩
def d62 : CDate := ⟨2025, 11, 11⟩
def d63 : CDate := ⟨2025, 11, 18⟩
def d64 : CDate := ⟨2025, 11, 25⟩

/-- A projected-attendance row whose four future-rehearsal cells read
[0, NA, 1, 0]. -/
def rowC6 : MarkRow := ⟨"X", [(d61, some 0), (d63, some 1), (d64, some 0)]⟩

/-- A joined frame containing a portal-membership side (`whole_name` present):
one row known only to the portal, with `Email` and `EMAIL` both missing but
`primary_email` present. -/
def dfC8 : DFL :=
  { cols := [.s "Name", .s "Email", .s "Voice Part", .s "color", .s "sort_key",
             .s "whole_name", .s "EMAIL", .s "primary_email", .s "voice_part"]
    rows := [[(.s "Name", .na), (.s "Email", .na), (.s "Voice Part", .na),
              (.s "color", .na), (.s "sort_key", .na),
              (.s "whole_name", .str "Bob"), (.s "EMAIL", .na),
              (.s "primary_email", .str "b@portal"), (.s "voice_part", .str "Tenor")]] }

/-- Like `dfC8` but with an audition-board `EMAIL` value present, distinct from
the portal's `primary_email`. -/
def dfC5 : DFL :=
  { cols := dfC8.cols
    rows := [[(.s "Name", .na), (.s "Email", .na), (.s "Voice Part", .na),
              (.s "color", .na), (.s "sort_key", .na),
              (.s "whole_name", .str "Bob"), (.s "EMAIL", .str "a@audition"),
              (.s "primary_email", .str "b@portal"), (.s "voice_part", .str "Tenor")]] }

/-- A two-column actual-attendance frame (Name plus one rehearsal date). -/
def dfC9actual : DFL :=
  { cols := [.s "Name", .d ⟨2025, 10, 14⟩]
    rows := [[(.s "Name", .str "Alice"), (.d ⟨2025, 10, 14⟩, .int 1)]] }

def dfC9projected : DFL :=
  { cols := [.s "Name", .d ⟨2025, 10, 21⟩]
    rows := [[(.s "Name", .str "Alice"), (.d ⟨2025, 10, 21⟩, .int 0)]] }

def dfC9pca : DFL :=
  { cols := [.s "Name", .d ct0]
    rows := [[(.s "Name", .str "Alice"), (.d ct0, .int 1)]] }

/-- Two singing rows, one of them (a portal-only singer after fill) with
`Voice Part` missing but `sort_key`/`color` filled. -/
def dfC10 : DFL :=
  { cols := [.s "Name", .s "Voice Part", .s "sort_key", .s "color"]
    rows := [[(.s "Name", .str "Alice"), (.s "Voice Part", .str "Soprano"),
              (.s "sort_key", .int 1), (.s "color", .str "red")],
             [(.s "Name", .str "Bob"), (.s "Voice Part", .na),
              (.s "sort_key", .inf), (.s "color", .str "black")]] }

/-! ## Supporting lemmas -/

theorem CDate.le_refl (a : CDate) : a ≤ a := by
  change le a a; unfold le; omega

theorem CDate.le_trans {a b c : CDate} (h1 : a ≤ b) (h2 : b ≤ c) : a ≤ c := by
  change le a b at h1; change le b c at h2; change le a c
  unfold le at *; omega

theorem CDate.le_total (a b : CDate) : a ≤ b ∨ b ≤ a := by
  change le a b ∨ le b a; unfold le; omega

theorem CDate.lt_of_le_of_lt {a b c : CDate} (h1 : a ≤ b) (h2 : b < c) : a < c := by
  change le a b at h1; change lt b c at h2; change lt a c
  unfold lt le at *; omega

theorem CDate.not_le_of_lt {a b : CDate} (h : a < b) : ¬ b ≤ a := by
  change lt a b at h; intro h2; change le b a at h2
  unfold lt le at *; omega

theorem CDate.lt_nextDay (dt : CDate) : dt < nextDay dt := by
  unfold nextDay
  by_cases h1 : dt.d < daysInMonth dt.y dt.m
  · simp only [h1, if_true]; change lt _ _; unfold lt; dsimp only; omega
  · simp only [h1, if_false]
    by_cases h2 : dt.m < 12
    · simp only [h2, if_true]; change lt _ _; unfold lt; dsimp only; omega
    · simp only [h2, if_false]; change lt _ _; unfold lt; dsimp only; omega

instance : IsTotal CDate (· ≤ ·) := ⟨CDate.le_total⟩

instance : IsTrans CDate (· ≤ ·) := ⟨fun _ _ _ => CDate.le_trans⟩

/-- `sub` occurs inside `t` (substring as concatenation decomposition). -/
def strContainsP (t sub : String) : Prop := ∃ a b, t = a ++ sub ++ b

theorem strContainsP.appendLeft {t sub : String} (h : strContainsP t sub) (u : String) :
    strContainsP (u ++ t) sub := by
  obtain ⟨a, b, rfl⟩ := h
  exact ⟨u ++ a, b, by rw [← String.append_assoc, ← String.append_assoc]⟩

theorem strContainsP.appendRight {t sub : String} (h : strContainsP t sub) (u : String) :
    strContainsP (t ++ u) sub := by
  obtain ⟨a, b, rfl⟩ := h
  exact ⟨a, b ++ u, by rw [String.append_assoc, String.append_assoc]⟩

theorem strContainsP_of_eq {t sub a b : String} (h : t = a ++ sub ++ b) :
    strContainsP t sub := ⟨a, b, h⟩

/-- A string that starts with a non-`N` character is not the literal `"None"`.
Stated for the concatenations `_table` produces. -/
theorem tableNeNone (x : String) : "\n    <table style=\"" ++ x ≠ "None" := by
  intro h
  have hd := congrArg String.data h
  rw [String.data_append] at hd
  simp at hd

theorem List.zipWith_map_right2 {α β γ : Type} (f : α → β → γ) (g : α → β) :
    ∀ l : List α, List.zipWith f l (l.map g) = l.map (fun a => f a (g a))
  | [] => rfl
  | a :: l => by simp [List.zipWith, List.zipWith_map_right2 f g l]

theorem List.zipWith_map_map2 {α β γ δ : Type} (f : β → γ → δ) (h : α → β) (g : α → γ) :
    ∀ l : List α, List.zipWith f (l.map h) (l.map g) = l.map (fun a => f (h a) (g a))
  | [] => rfl
  | a :: l => by simp [List.zipWith, List.zipWith_map_map2 f h g l]

theorem lookup_mapReplace_ne (c c' : Col) (v : Val) (h : ¬ c = c') :
    ∀ r : Row, (r.map (fun p => if p.1 == c' then (c', v) else p)).lookup c = r.lookup c := by
  intro r
  induction r with
  | nil => rfl
  | cons a r ih =>
    by_cases ha : a.1 = c'
    · have hb1 : (a.1 == c') = true := by simpa using ha
      have hb2 : (c == c') = false := by simpa using h
      have hb3 : (c == a.1) = false := by simpa using fun e : c = a.1 => h (e.trans ha)
      rw [List.map_cons, if_pos hb1, List.lookup, List.lookup]
      simp only [hb2, hb3]
      exact ih
    · have hb1 : ¬ ((a.1 == c') = true) := by simpa using ha
      rw [List.map_cons, if_neg hb1, List.lookup, List.lookup]
      by_cases hac : c = a.1
      · have hb : (c == a.1) = true := by simpa using hac
        simp only [hb]
      · have hb : (c == a.1) = false := by simpa using hac
        simp only [hb]
        exact ih

theorem lookup_mapReplace_eq (c : Col) (v : Val) :
    ∀ r : Row, r.any (fun p => p.1 == c) = true →
      (r.map (fun p => if p.1 == c then (c, v) else p)).lookup c = some v := by
  intro r
  induction r with
  | nil => intro h; simp at h
  | cons a r ih =>
    intro h
    by_cases ha : a.1 = c
    · have hb1 : (a.1 == c) = true := by simpa using ha
      rw [List.map_cons, if_pos hb1, List.lookup]
      simp
    · have hb1 : ¬ ((a.1 == c) = true) := by simpa using ha
      have hb3 : (c == a.1) = false := by simpa using fun e : c = a.1 => ha e.symm
      simp only [List.any_cons, Bool.or_eq_true, beq_iff_eq, ha, false_or] at h
      rw [List.map_cons, if_neg hb1, List.lookup]
      simp only [hb3]
      exact ih (by simpa [List.any_eq_true] using h)

theorem lookup_append_single_ne (c c' : Col) (v : Val) (h : ¬ c = c') :
    ∀ r : Row, (r ++ [(c', v)]).lookup c = r.lookup c := by
  intro r
  induction r with
  | nil =>
    have hb : (c == c') = false := by simpa using h
    simp [List.lookup, hb]
  | cons a r ih =>
    rw [List.cons_append, List.lookup, List.lookup]
    by_cases hac : c = a.1
    · have hb : (c == a.1) = true := by simpa using hac
      simp only [hb]
    · have hb : (c == a.1) = false := by simpa using hac
      simp only [hb]
      exact ih

theorem lookup_eq_none_of_not_any (c : Col) :
    ∀ r : Row, r.any (fun p => p.1 == c) = false → r.lookup c = none := by
  intro r
  induction r with
  | nil => intro _; rfl
  | cons a r ih =>
    intro h
    simp only [List.any_cons, Bool.or_eq_false_iff] at h
    have hb : (c == a.1) = false := by
      have h1 := h.1
      simp only [beq_eq_false_iff_ne, ne_eq] at h1 ⊢
      exact fun e => h1 e.symm
    rw [List.lookup]
    simp only [hb]
    exact ih h.2

theorem lookup_append_single_eq (c : Col) (v : Val) :
    ∀ r : Row, r.lookup c = none → (r ++ [(c, v)]).lookup c = some v := by
  intro r
  induction r with
  | nil => intro _; simp [List.lookup]
  | cons a r ih =>
    intro h
    rw [List.lookup] at h
    by_cases hac : c = a.1
    · have hb : (c == a.1) = true := by simpa using hac
      simp only [hb] at h
      exact absurd h (by simp)
    · have hb : (c == a.1) = false := by simpa using hac
      simp only [hb] at h
      rw [List.cons_append, List.lookup]
      simp only [hb]
      exact ih h


theorem getV_setIn_ne (r : Row) (c c' : Col) (v : Val) (h : ¬ c = c') :
    getV (DFL.setIn r c' v) c = getV r c := by
  unfold getV DFL.setIn
  by_cases hAny : r.any (fun p => p.1 == c')
  · rw [if_pos hAny, lookup_mapReplace_ne c c' v h r]
  · rw [if_neg hAny, lookup_append_single_ne c c' v h r]

theorem getV_setIn_eq (r : Row) (c : Col) (v : Val) :
    getV (DFL.setIn r c v) c = v := by
  unfold getV DFL.setIn
  by_cases hAny : r.any (fun p => p.1 == c)
  · rw [if_pos hAny, lookup_mapReplace_eq c v r hAny]
    rfl
  · rw [if_neg hAny,
      lookup_append_single_eq c v r
        (lookup_eq_none_of_not_any c r (Bool.eq_false_iff.2 hAny))]
    rfl

/-! ## Claim theorems -/

/-- Pure boolean core of the four-way classification of lines 60-70. -/
theorem partitionBool (A Y M R : Bool) (h : R = true) :
    ([A, Y && !A, M && !(A || (Y && !A)),
      R && !(A || (Y && !A) || (M && !(A || (Y && !A))))].count true) = 1 := by
  subst h
  cases A <;> cases M <;> cases Y <;> rfl

/-- C4: for every joined row whose projected-join indicator is not
`right_only` (the on-roster rows, in the code's sense of
`join.projected != "right_only"`), exactly one of SingingThisCycle,
OtherCyclesYes, OtherCyclesMaybe, Gone holds. -/
theorem claim_C4_attendance_partition (concerts : List CDate) (cycleTo : CDate)
    (j : AJoin) (h : on_monday_roster j = true) :
    ([singing_this_cycle cycleTo j, other_cycles_yes concerts cycleTo j,
      other_cycles_maybe concerts cycleTo j, gone concerts cycleTo j].count true) = 1 :=
  partitionBool (singing_this_cycle cycleTo j)
    ((concerts.filter (fun c => c ≠ cycleTo)).any
      (fun dt => (j.statusVal dt).isin SINGING_STATES))
    ((concerts.filter (fun c => c ≠ cycleTo)).any
      (fun dt => (j.statusVal dt).isin MAYBE_STATES))
    (on_monday_roster j) h

theorem claim_C4_witness :
    on_monday_roster jOnRoster = true ∧
      ([singing_this_cycle ct0 jOnRoster, other_cycles_yes [ct0] ct0 jOnRoster,
        other_cycles_maybe [ct0] ct0 jOnRoster, gone [ct0] ct0 jOnRoster].count true) = 1 :=
  ⟨by decide, claim_C4_attendance_partition [ct0] ct0 jOnRoster (by decide)⟩

theorem count_true_map_eq_length_filter {α : Type} (f : α → Bool) :
    ∀ l : List α, ((l.map f).count true) = (l.filter f).length := by
  intro l
  induction l with
  | nil => rfl
  | cons a l ih =>
    simp only [List.map_cons, List.count_cons, List.filter_cons, ih]
    cases h : f a <;> simp [h]

theorem valEq_optInt_zero (o : Option Int) :
    (optIntVal o).eq (.int 0) = decide (o = some 0) := by
  cases o with
  | none => rfl
  | some n =>
    simp only [optIntVal, Val.eq, Option.some.injEq]
    by_cases h : n = 0 <;> simp [h]

/-- C6: `Absences_projected` counts exactly the future-rehearsal cells that
hold an explicit 0; unmarked (NA) cells contribute nothing.  In particular a
row whose four future cells read [0, NA, 1, 0] gets 2, not 3. -/
theorem claim_C6_projected_absences :
    (∀ (future : List CDate) (p : MarkRow),
        absencesProjectedOf future p
          = ((future.filter (fun dt => p.markAt dt = some 0)).length : Int))
    ∧ absencesProjectedOf [d61, d62, d63, d64] rowC6 = 2 := by
  constructor
  · intro future p
    unfold absencesProjectedOf
    congr 1
    simp only [valEq_optInt_zero]
    exact count_true_map_eq_length_filter _ future
  · decide

/-- C1: the worth-sending rule of `generate_attendance_report`.  The source's
`today_is_thursday = current_nyc_date.weekday == 3` compares the *bound
method* to 3, which is always False in Python, so on a Thursday whose date is
not the most recent rehearsal the report is not worth sending — against the
spec.  2025-10-16 is a Thursday (`pyWeekday = 3`), the only past rehearsal is
2025-10-14, yet the returned worth-sending boolean is False. -/
theorem claim_C1_thursday_bug :
    CDate.pyWeekday ⟨2025, 10, 16⟩ = 3 ∧
    worth_sending_attendance actualThu.dates ⟨2025, 10, 16⟩ = false ∧
    (generate_attendance_report actualThu emptyMarks rosterT
        ⟨2025, 10, 16⟩ ⟨2025, 9, 1⟩ ct0).2 = false := by
  refine ⟨by decide, by decide, by decide⟩

theorem wrap_contains (body sub : String) (h : strContainsP body sub) :
    strContainsP (wrap_body body) sub := by
  unfold wrap_body
  exact (((h.appendLeft _).appendRight _).appendRight _).appendRight _

theorem attendanceBody_none_contains (concerts past future : List CDate)
    (fr ct : CDate) (joined : List AJoin) :
    strContainsP (attendanceBody concerts past future none fr ct joined)
      "This Week (None)" :=
  ⟨"\n    <h1>", "</h1>\n    " ++ attendanceBodyRest concerts past future none fr ct joined,
   by rw [← String.append_assoc]; rfl⟩

theorem attendanceBody_none_contains_thisWeek (concerts past future : List CDate)
    (fr ct : CDate) (joined : List AJoin) :
    strContainsP (attendanceBody concerts past future none fr ct joined) "This Week" :=
  ⟨"\n    <h1>", " (None)</h1>\n    " ++ attendanceBodyRest concerts past future none fr ct joined,
   by rw [← String.append_assoc]; rfl⟩

/-- C2 (counterexample): with no date columns in the actual-attendance table,
the rendered body still *contains* the "This Week" section (its header is
rendered unconditionally, interpolating Python `None`), so the claim that the
section is omitted is false. -/
theorem claim_C2_counterexample :
    strContainsP (generate_attendance_report emptyMarks emptyMarks rosterT
        ⟨2025, 10, 16⟩ ⟨2025, 9, 1⟩ ct0).1.body "This Week" :=
  wrap_contains _ _ (attendanceBody_none_contains_thisWeek _ _ _ _ _ _)

/-- C2 (amended): with no date columns in the actual-attendance table the
computation succeeds, PresentTonight / AbsentTonight / the marked-absent
excuse flag are False for every row, the worth-sending boolean reduces to the
weekly-send-day check alone, and the "This Week" section is rendered in a
neutral state — header `This Week (None)` with empty content — rather than
omitted. -/
theorem claim_C2_amended (actual_attendance projected_attendance : MarkTable)
    (roster : RosterTable) (current cf ct : CDate)
    (h : actual_attendance.dates = []) :
    (generate_attendance_report actual_attendance projected_attendance roster
        current cf ct).2 = todayIsThursdayAsWritten current
    ∧ (∀ j : AJoin, present_tonight (listMax? actual_attendance.dates) j = false
        ∧ absent_tonight (listMax? actual_attendance.dates) ct j = false
        ∧ marked_absent_tonight (listMax? actual_attendance.dates) j = false)
    ∧ strContainsP (generate_attendance_report actual_attendance projected_attendance
        roster current cf ct).1.body "This Week (None)" := by
  obtain ⟨ad, ar⟩ := actual_attendance
  have hd : ad = [] := h
  subst hd
  refine ⟨?_, ?_, ?_⟩
  · show (todayIsThursdayAsWritten current || false) = todayIsThursdayAsWritten current
    exact Bool.or_false _
  · intro j
    exact ⟨rfl, rfl, rfl⟩
  · exact wrap_contains _ _ (attendanceBody_none_contains _ _ _ _ _ _)

theorem claim_C2_witness :
    emptyMarks.dates = ([] : List CDate) ∧
    ((generate_attendance_report emptyMarks emptyMarks rosterT
        ⟨2025, 10, 16⟩ ⟨2025, 9, 1⟩ ct0).2 = todayIsThursdayAsWritten ⟨2025, 10, 16⟩
      ∧ (∀ j : AJoin, present_tonight (listMax? emptyMarks.dates) j = false
          ∧ absent_tonight (listMax? emptyMarks.dates) ct0 j = false
          ∧ marked_absent_tonight (listMax? emptyMarks.dates) j = false)
      ∧ strContainsP (generate_attendance_report emptyMarks emptyMarks rosterT
          ⟨2025, 10, 16⟩ ⟨2025, 9, 1⟩ ct0).1.body "This Week (None)") :=
  ⟨rfl, claim_C2_amended emptyMarks emptyMarks rosterT ⟨2025, 10, 16⟩ ⟨2025, 9, 1⟩ ct0 rfl⟩

theorem fillna_ne_na (filler v : Val) (h : filler ≠ .na) : Val.fillna filler v ≠ .na := by
  unfold Val.fillna
  by_cases hv : v = .na
  · rw [if_pos hv]; exact h
  · rw [if_neg hv]; exact hv

/-- Row-level form of the plain branch of `_fill_and_sort`. -/
def smallFill (r : Row) : Row :=
  DFL.setIn
    (DFL.setIn
      (DFL.setIn r (.s "color") (Val.fillna (.str "black") (getV r (.s "color"))))
      (.s "sort_key") (Val.fillna .inf (getV r (.s "sort_key"))))
    (.s "Email") (Val.fillna (.str "email-is-missing") (getV r (.s "Email")))

/-- Row-level form of the portal (`whole_name`) branch of `_fill_and_sort`. -/
def bigFill (r : Row) : Row :=
  DFL.setIn
    (DFL.setIn
      (DFL.setIn
        (DFL.setIn
          (DFL.setIn r (.s "color") (Val.fillna (.str "black") (getV r (.s "color"))))
          (.s "sort_key") (Val.fillna .inf (getV r (.s "sort_key"))))
        (.s "Email") (Val.fillna (getV r (.s "EMAIL")) (getV r (.s "Email"))))
      (.s "Name") (Val.fillna (getV r (.s "whole_name")) (getV r (.s "Name"))))
    (.s "Voice Part") (Val.fillna (getV r (.s "voice_part")) (getV r (.s "Voice Part")))

theorem fill_and_sort_rows_plain (df : DFL) (h : df.hasCol (.s "whole_name") = false) :
    (fill_and_sort df).rows = sortRowsBySortKeyName (df.rows.map smallFill) := by
  unfold fill_and_sort
  rw [h]
  simp only [Bool.false_eq_true, if_false, List.foldl, DFL.setCol, DFL.colVals,
    List.map_map]
  congr 1
  rw [List.zipWith_map_right2]
  rw [List.zipWith_map_map2, List.zipWith_map_map2]
  rfl

theorem fill_and_sort_rows_portal (df : DFL) (h : df.hasCol (.s "whole_name") = true) :
    (fill_and_sort df).rows = sortRowsBySortKeyName (df.rows.map bigFill) := by
  unfold fill_and_sort
  rw [h]
  simp only [if_true, List.foldl, DFL.setCol, DFL.colVals, List.map_map]
  congr 1
  rw [List.zipWith_map_right2]
  rw [List.zipWith_map_map2, List.zipWith_map_map2, List.zipWith_map_map2,
    List.zipWith_map_map2]
  rfl

theorem mem_fill_and_sort (df : DFL) (r : Row) (h : r ∈ (fill_and_sort df).rows) :
    (df.hasCol (.s "whole_name") = false ∧ ∃ r0 ∈ df.rows, r = smallFill r0)
    ∨ (df.hasCol (.s "whole_name") = true ∧ ∃ r0 ∈ df.rows, r = bigFill r0) := by
  by_cases hW : df.hasCol (.s "whole_name")
  · right
    refine ⟨hW, ?_⟩
    rw [fill_and_sort_rows_portal df hW] at h
    have hp := (List.perm_insertionSort rowLeSortKeyName (df.rows.map bigFill)).mem_iff.mp h
    obtain ⟨r0, hr0, he⟩ := List.mem_map.mp hp
    exact ⟨r0, hr0, he.symm⟩
  · left
    have hW2 : df.hasCol (.s "whole_name") = false := Bool.eq_false_iff.2 hW
    refine ⟨hW2, ?_⟩
    rw [fill_and_sort_rows_plain df hW2] at h
    have hp := (List.perm_insertionSort rowLeSortKeyName (df.rows.map smallFill)).mem_iff.mp h
    obtain ⟨r0, hr0, he⟩ := List.mem_map.mp hp
    exact ⟨r0, hr0, he.symm⟩

theorem smallFill_color (r : Row) :
    getV (smallFill r) (.s "color") = Val.fillna (.str "black") (getV r (.s "color")) := by
  unfold smallFill
  rw [getV_setIn_ne _ _ _ _ (by decide), getV_setIn_ne _ _ _ _ (by decide), getV_setIn_eq]

theorem smallFill_sortKey (r : Row) :
    getV (smallFill r) (.s "sort_key") = Val.fillna .inf (getV r (.s "sort_key")) := by
  unfold smallFill
  rw [getV_setIn_ne _ _ _ _ (by decide), getV_setIn_eq]

theorem smallFill_email (r : Row) :
    getV (smallFill r) (.s "Email")
      = Val.fillna (.str "email-is-missing") (getV r (.s "Email")) := by
  unfold smallFill
  rw [getV_setIn_eq]

theorem bigFill_color (r : Row) :
    getV (bigFill r) (.s "color") = Val.fillna (.str "black") (getV r (.s "color")) := by
  unfold bigFill
  rw [getV_setIn_ne _ _ _ _ (by decide), getV_setIn_ne _ _ _ _ (by decide),
    getV_setIn_ne _ _ _ _ (by decide), getV_setIn_ne _ _ _ _ (by decide), getV_setIn_eq]

theorem bigFill_sortKey (r : Row) :
    getV (bigFill r) (.s "sort_key") = Val.fillna .inf (getV r (.s "sort_key")) := by
  unfold bigFill
  rw [getV_setIn_ne _ _ _ _ (by decide), getV_setIn_ne _ _ _ _ (by decide),
    getV_setIn_ne _ _ _ _ (by decide), getV_setIn_eq]

theorem bigFill_email (r : Row) :
    getV (bigFill r) (.s "Email")
      = Val.fillna (getV r (.s "EMAIL")) (getV r (.s "Email")) := by
  unfold bigFill
  rw [getV_setIn_ne _ _ _ _ (by decide), getV_setIn_ne _ _ _ _ (by decide), getV_setIn_eq]

theorem bigFill_name (r : Row) :
    getV (bigFill r) (.s "Name")
      = Val.fillna (getV r (.s "whole_name")) (getV r (.s "Name")) := by
  unfold bigFill
  rw [getV_setIn_ne _ _ _ _ (by decide), getV_setIn_eq]

theorem bigFill_voicePart (r : Row) :
    getV (bigFill r) (.s "Voice Part")
      = Val.fillna (getV r (.s "voice_part")) (getV r (.s "Voice Part")) := by
  unfold bigFill
  rw [getV_setIn_eq]

/-- C8 (counterexample): in the `whole_name` branch the replacement dict's
`"Email"` entry is overwritten by `df.Email.fillna(df.EMAIL)`, so a row whose
`Email` and `EMAIL` are both missing keeps a missing `Email` after the fill —
the claim that Email is never missing after `_fill_and_sort` is false. -/
theorem claim_C8_counterexample :
    ((fill_and_sort dfC8).rows.all (fun r => getV r (.s "Email") ≠ .na)) = false := by
  decide

/-- C8 (amended): after `_fill_and_sort`, `color` and `sort_key` are never
missing (filled with "black" / inf); `Email` is never missing when the join
has no portal-membership side (no `whole_name` column) — with `whole_name`
present it is instead filled from `EMAIL` and may remain missing. -/
theorem claim_C8_amended (df : DFL) :
    (∀ r ∈ (fill_and_sort df).rows,
        getV r (.s "color") ≠ .na ∧ getV r (.s "sort_key") ≠ .na)
    ∧ (df.hasCol (.s "whole_name") = false →
        ∀ r ∈ (fill_and_sort df).rows, getV r (.s "Email") ≠ .na) := by
  constructor
  · intro r hr
    rcases mem_fill_and_sort df r hr with ⟨_, r0, _, rfl⟩ | ⟨_, r0, _, rfl⟩
    · exact ⟨by rw [smallFill_color]; exact fillna_ne_na _ _ (by decide),
        by rw [smallFill_sortKey]; exact fillna_ne_na _ _ (by decide)⟩
    · exact ⟨by rw [bigFill_color]; exact fillna_ne_na _ _ (by decide),
        by rw [bigFill_sortKey]; exact fillna_ne_na _ _ (by decide)⟩
  · intro hW r hr
    rcases mem_fill_and_sort df r hr with ⟨_, r0, _, rfl⟩ | ⟨hW2, _⟩
    · rw [smallFill_email]
      exact fillna_ne_na _ _ (by decide)
    · rw [hW] at hW2
      exact absurd hW2 (by decide)

theorem claim_C8_witness :
    dfC9actual.hasCol (.s "whole_name") = false ∧
    (∀ r ∈ (fill_and_sort dfC9actual).rows, getV r (.s "Email") ≠ .na) :=
  ⟨by decide, (claim_C8_amended dfC9actual).2 (by decide)⟩

/-- C5 (counterexample): the portal-membership (`whole_name`) branch fills a
missing `Email` from the `EMAIL` column of the audition-candidates board, not
from the portal's `primary_email`: on a row with `Email` missing,
`EMAIL = "a@audition"` and `primary_email = "b@portal"`, the filled value is
"a@audition" ≠ "b@portal". -/
theorem claim_C5_counterexample :
    ((fill_and_sort dfC5).rows.map (fun r => getV r (.s "Email"))) = [.str "a@audition"]
    ∧ ((fill_and_sort dfC5).rows.map (fun r => getV r (.s "primary_email")))
        = [.str "b@portal"]
    ∧ Val.str "a@audition" ≠ Val.str "b@portal" := by
  refine ⟨by decide, by decide, by decide⟩

/-- C5 (amended): when the joined table has the portal's `whole_name` column,
`_fill_and_sort` back-fills, per row: `Name` from `whole_name`, `Voice Part`
from the portal's `voice_part` — but `Email` from the audition board's
`EMAIL` column (not the portal's `primary_email`). -/
theorem claim_C5_amended (df : DFL) (hW : df.hasCol (.s "whole_name") = true) :
    ∀ r ∈ (fill_and_sort df).rows, ∃ r0 ∈ df.rows,
      getV r (.s "Name") = Val.fillna (getV r0 (.s "whole_name")) (getV r0 (.s "Name"))
      ∧ getV r (.s "Email") = Val.fillna (getV r0 (.s "EMAIL")) (getV r0 (.s "Email"))
      ∧ getV r (.s "Voice Part")
          = Val.fillna (getV r0 (.s "voice_part")) (getV r0 (.s "Voice Part")) := by
  intro r hr
  rcases mem_fill_and_sort df r hr with ⟨hW2, _⟩ | ⟨_, r0, hr0, rfl⟩
  · rw [hW] at hW2
    exact absurd hW2 (by decide)
  · exact ⟨r0, hr0, by rw [bigFill_name], by rw [bigFill_email], by rw [bigFill_voicePart]⟩

theorem claim_C5_witness :
    dfC5.hasCol (.s "whole_name") = true ∧
    (∀ r ∈ (fill_and_sort dfC5).rows, ∃ r0 ∈ dfC5.rows,
      getV r (.s "Name") = Val.fillna (getV r0 (.s "whole_name")) (getV r0 (.s "Name"))
      ∧ getV r (.s "Email") = Val.fillna (getV r0 (.s "EMAIL")) (getV r0 (.s "Email"))
      ∧ getV r (.s "Voice Part")
          = Val.fillna (getV r0 (.s "voice_part")) (getV r0 (.s "Voice Part"))) :=
  ⟨by decide, claim_C5_amended dfC5 (by decide)⟩

/-- C9 (counterexample): `generate_attendance_report` writes derived columns
into the caller's actual-attendance table (lines 44-48): after the call the
table has gained an `Attended` column, so the inputs are not unchanged. -/
theorem claim_C9_counterexample :
    (attendanceDeriveColumns dfC9actual dfC9projected).1.cols ≠ dfC9actual.cols := by
  decide

/-- C9 (amended): the report generators do mutate some inputs, but only by
appending derived columns — `Attended` and `Absences` to the
actual-attendance table, `Absences` to the projected table,
`Concerts_Marked_Absent`/`Concerts_Marked_Singing` to the projected
concert-attendance table; every pre-existing column keeps its values, and the
roster / candidates / portal tables are never written. -/
theorem claim_C9_amended (a p q : DFL)
    (ha1 : a.cols.contains (.s "Attended") = false)
    (ha2 : a.cols.contains (.s "Absences") = false)
    (hp : p.cols.contains (.s "Absences") = false)
    (hq1 : q.cols.contains (.s "Concerts_Marked_Absent") = false)
    (hq2 : q.cols.contains (.s "Concerts_Marked_Singing") = false) :
    ((attendanceDeriveColumns a p).1.cols = a.cols ++ [.s "Attended", .s "Absences"])
    ∧ ((attendanceDeriveColumns a p).2.cols = p.cols ++ [.s "Absences"])
    ∧ ((consistencyDeriveColumns q).cols
        = q.cols ++ [.s "Concerts_Marked_Absent", .s "Concerts_Marked_Singing"])
    ∧ (∀ c ∈ a.cols, (attendanceDeriveColumns a p).1.colVals c = a.colVals c)
    ∧ (∀ c ∈ p.cols, (attendanceDeriveColumns a p).2.colVals c = p.colVals c)
    ∧ (∀ c ∈ q.cols, (consistencyDeriveColumns q).colVals c = q.colVals c) := by
  have haA : (.s "Attended") ∉ a.cols := by simpa using ha1
  have haB : (.s "Absences") ∉ a.cols := by simpa using ha2
  have hpB : (.s "Absences") ∉ p.cols := by simpa using hp
  have hqA : (.s "Concerts_Marked_Absent") ∉ q.cols := by simpa using hq1
  have hqS : (.s "Concerts_Marked_Singing") ∉ q.cols := by simpa using hq2
  have h2 : ((a.cols ++ [Col.s "Attended"]).contains (.s "Absences")) = false := by
    simp [haB]
  have h3 : ((q.cols ++ [Col.s "Concerts_Marked_Absent"]).contains
      (.s "Concerts_Marked_Singing")) = false := by
    simp [hqS]
  refine ⟨?_, ?_, ?_, ?_, ?_, ?_⟩
  · show (DFL.setCol (DFL.setCol a _ _) _ _).cols = _
    unfold DFL.setCol
    simp only [ha1, Bool.false_eq_true, if_false]
    simp only [h2, Bool.false_eq_true, if_false]
    simp [List.append_assoc]
  · show (DFL.setCol p _ _).cols = _
    unfold DFL.setCol
    simp only [hp, Bool.false_eq_true, if_false]
  · show (DFL.setCol (DFL.setCol q _ _) _ _).cols = _
    unfold DFL.setCol
    simp only [hq1, Bool.false_eq_true, if_false]
    simp only [h3, Bool.false_eq_true, if_false]
    simp [List.append_assoc]
  · intro c hc
    have hc1 : ¬ c = .s "Attended" := fun e => haA (e ▸ hc)
    have hc2 : ¬ c = .s "Absences" := fun e => haB (e ▸ hc)
    show ((DFL.setCol (DFL.setCol a _ _) _ _).colVals c) = _
    unfold DFL.setCol DFL.colVals
    simp only [List.zipWith_map_right2, List.map_map, List.zipWith_map_map2]
    apply List.map_congr_left
    intro r _
    simp only [Function.comp]
    rw [getV_setIn_ne _ _ _ _ hc2, getV_setIn_ne _ _ _ _ hc1]
  · intro c hc
    have hc2 : ¬ c = .s "Absences" := fun e => hpB (e ▸ hc)
    show ((DFL.setCol p _ _).colVals c) = _
    unfold DFL.setCol DFL.colVals
    rw [List.zipWith_map_right2]
    simp only [List.map_map]
    apply List.map_congr_left
    intro r _
    simp only [Function.comp]
    rw [getV_setIn_ne _ _ _ _ hc2]
  · intro c hc
    have hc1 : ¬ c = .s "Concerts_Marked_Absent" := fun e => hqA (e ▸ hc)
    have hc2 : ¬ c = .s "Concerts_Marked_Singing" := fun e => hqS (e ▸ hc)
    show ((DFL.setCol (DFL.setCol q _ _) _ _).colVals c) = _
    unfold DFL.setCol DFL.colVals
    simp only [List.zipWith_map_right2, List.map_map, List.zipWith_map_map2]
    apply List.map_congr_left
    intro r _
    simp only [Function.comp]
    rw [getV_setIn_ne _ _ _ _ hc2, getV_setIn_ne _ _ _ _ hc1]

theorem claim_C9_witness :
    (dfC9actual.cols.contains (.s "Attended") = false)
    ∧ ((attendanceDeriveColumns dfC9actual dfC9projected).1.cols
        = dfC9actual.cols ++ [.s "Attended", .s "Absences"]) :=
  ⟨by decide,
   (claim_C9_amended dfC9actual dfC9projected dfC9pca (by decide) (by decide)
      (by decide) (by decide) (by decide)).1⟩

theorem foldl_add_eq_sum (f : Row → Int) :
    ∀ (l : List Row) (init : Int),
      l.foldl (fun acc r => acc + f r) init = init + (l.map f).sum := by
  intro l
  induction l with
  | nil => intro init; simp
  | cons a l ih =>
    intro init
    simp only [List.foldl_cons, List.map_cons, List.sum_cons, ih]
    ring

theorem sum_map_filter_partition (f : Row → Int) (p : Row → Bool) :
    ∀ l : List Row,
      ((l.filter p).map f).sum + ((l.filter (fun r => !(p r))).map f).sum
        = (l.map f).sum := by
  intro l
  induction l with
  | nil => rfl
  | cons a l ih =>
    simp only [List.filter_cons]
    cases h : p a <;> simp [h, ← ih] <;> ring

theorem sum_over_groups (key : Row → List Val) (f : Row → Int) :
    ∀ (K : List (List Val)) (l : List Row), K.Nodup → (∀ r ∈ l, key r ∈ K) →
      (K.map (fun k => ((l.filter (fun r => key r = k)).map f).sum)).sum
        = (l.map f).sum := by
  intro K
  induction K with
  | nil =>
    intro l _ hmem
    have : l = [] := by
      cases l with
      | nil => rfl
      | cons a l => exact absurd (hmem a (List.mem_cons_self a l)) (by simp)
    subst this
    rfl
  | cons k K ih =>
    intro l hnd hmem
    have hnd2 := hnd.of_cons
    have hkK : k ∉ K := (List.nodup_cons.mp hnd).1
    simp only [List.map_cons, List.sum_cons]
    have hB := ih (l.filter (fun r => !(decide (key r = k))))
      hnd2
      (by
        intro r hr
        obtain ⟨hrl, hrk⟩ := List.mem_filter.mp hr
        have := hmem r hrl
        simp only [List.mem_cons] at this
        rcases this with he | hK
        · exact absurd (by simpa using hrk) (by simp [he])
        · exact hK)
    have hsplit := sum_map_filter_partition f (fun r => decide (key r = k)) l
    have hKeq : ∀ k' ∈ K,
        (l.filter (fun r => decide (key r = k'))) =
          ((l.filter (fun r => !(decide (key r = k)))).filter
            (fun r => decide (key r = k'))) := by
      intro k' hk'
      rw [List.filter_filter]
      apply List.filter_congr
      intro r _
      by_cases he : key r = k'
      · have hkeyk : ¬ key r = k := by
          intro e
          exact hkK (by rw [show k = k' from e.symm.trans he]; exact hk')
        have hne : ¬ k' = k := fun e2 => hkK (e2 ▸ hk')
        simp [he, hne]
      · simp [he]
    have hmapeq : (K.map (fun k' => ((l.filter (fun r => key r = k')).map f).sum))
        = (K.map (fun k' =>
            (((l.filter (fun r => !(decide (key r = k)))).filter
              (fun r => key r = k')).map f).sum)) := by
      apply List.map_congr_left
      intro k' hk'
      rw [hKeq k' hk']
    rw [hmapeq, hB, ← hsplit]

theorem lookup_zip_skip (nmc : Col) :
    ∀ (cs : List Col) (k : List Val) (rest : Row), nmc ∉ cs →
      List.lookup nmc ((cs.zip k) ++ rest) = List.lookup nmc rest := by
  intro cs
  induction cs with
  | nil => intro k rest _; rfl
  | cons c cs ih =>
    intro k rest h
    cases k with
    | nil => rfl
    | cons v k =>
      have hne : ¬ nmc = c := fun e => h (e ▸ List.mem_cons_self c cs)
      simp only [List.zip_cons_cons, List.cons_append, List.lookup]
      have hb : (nmc == c) = false := by simpa using hne
      simp only [hb]
      exact ih k rest (fun hm => h (List.mem_cons_of_mem c hm))

/-- The kept rows, re-expressed with the three explicit non-missing-key
conditions. -/
theorem sgKept_eq (d : DFL) :
    sgKept d = d.rows.filter (fun r =>
      getV r (.s "Voice Part") ≠ .na ∧ getV r (.s "sort_key") ≠ .na
        ∧ getV r (.s "color") ≠ .na) := by
  unfold sgKept sgKeyCols
  apply List.filter_congr
  intro r _
  simp [List.all]

theorem mem_sgKeys (d : DFL) (k : List Val) (hk : k ∈ sgKeys d) :
    ∃ r0 ∈ sgKept d, sgKeyOf r0 = k := by
  unfold sgKeys at hk
  have hk2 := (List.perm_insertionSort _ _).mem_iff.mp hk
  rw [List.mem_dedup] at hk2
  exact List.mem_map.mp hk2

theorem getV_sgRow_voicePart (d : DFL) (sumCols : List String) (r0 : Row) :
    getV (sgRow d sumCols (sgKeyOf r0)) (.s "Voice Part")
      = getV r0 (.s "Voice Part") := by
  unfold sgRow sgKeyOf sgKeyCols
  simp [getV, List.lookup]

theorem getV_sgRow_sumCol (d : DFL) (nm : String) (k : List Val)
    (h1 : ¬ nm = "Voice Part") (h2 : ¬ nm = "sort_key") (h3 : ¬ nm = "color") :
    getV (sgRow d [nm] k) (.s nm) = Val.int (sgGroupSum d k nm) := by
  unfold sgRow
  have hnm : Col.s nm ∉ sgKeyCols := by simp [sgKeyCols, h1, h2, h3]
  unfold getV
  rw [lookup_zip_skip (Col.s nm) sgKeyCols k _ hnm]
  simp [List.lookup]

theorem sgGroupSum_eq_sum (d : DFL) (k : List Val) (nm : String) :
    sgGroupSum d k nm
      = (((sgKept d).filter (fun r => sgKeyOf r = k)).map
          (fun r => (getV r (.s nm)).toIntD)).sum := by
  unfold sgGroupSum
  rw [foldl_add_eq_sum]
  simp

/-- C10: in the grouped table `format_subtotals_table` renders, every row whose
`Voice Part` is missing has been silently dropped: (1) each rendered subtotal
row carries a non-missing `Voice Part`; (2) the appended totals value for an
indicator column sums only the rows whose three group keys are all present;
(3) concretely, two indicator-true rows of which one lacks `Voice Part`
produce a totals value of 1, fewer than the 2 indicator-true rows. -/
theorem claim_C10_subtotals :
    (∀ (d : DFL) (sumCols : List String),
        ∀ r ∈ (groupbySumVoiceSortColor d sumCols).rows,
          getV r (.s "Voice Part") ≠ .na)
    ∧ (∀ (d : DFL) (nm : String),
        ¬ nm = "Voice Part" → ¬ nm = "sort_key" → ¬ nm = "color" →
        DFL.colSum (groupbySumVoiceSortColor d [nm]) (.s nm)
          = ((d.rows.filter (fun r =>
                getV r (.s "Voice Part") ≠ .na ∧ getV r (.s "sort_key") ≠ .na
                  ∧ getV r (.s "color") ≠ .na)).map
              (fun r => (getV r (.s nm)).toIntD)).sum)
    ∧ (DFL.colSum (subtotalsGrouped dfC10 [("Present", [true, true])]) (.s "Present") = 1
        ∧ dfC10.rows.length = 2) := by
  refine ⟨?_, ?_, by decide, by decide⟩
  · intro d sumCols r hr
    unfold groupbySumVoiceSortColor at hr
    obtain ⟨k, hk, he⟩ := List.mem_map.mp hr
    obtain ⟨r0, hr0, hkey⟩ := mem_sgKeys d k hk
    subst he
    rw [← hkey, getV_sgRow_voicePart]
    rw [sgKept_eq] at hr0
    have := (List.mem_filter.mp hr0).2
    simp only [decide_eq_true_eq] at this
    exact this.1
  · intro d nm h1 h2 h3
    show (((((sgKeys d).map (sgRow d [nm])).map (fun r => getV r (.s nm))).map
        Val.toIntD).sum) = _
    rw [List.map_map, List.map_map]
    rw [List.map_congr_left (fun k _ => by
      show Val.toIntD (getV (sgRow d [nm] k) (.s nm))
          = (((sgKept d).filter (fun r => sgKeyOf r = k)).map
              (fun r => (getV r (.s nm)).toIntD)).sum
      rw [getV_sgRow_sumCol d nm k h1 h2 h3, sgGroupSum_eq_sum]
      rfl)]
    have hperm : List.Perm (sgKeys d) (((sgKept d).map sgKeyOf).dedup) :=
      List.perm_insertionSort _ _
    rw [(hperm.map _).sum_eq]
    rw [sum_over_groups sgKeyOf (fun r => (getV r (.s nm)).toIntD)
      (((sgKept d).map sgKeyOf).dedup) (sgKept d)
      (List.nodup_dedup _)
      (fun r hr => List.mem_dedup.mpr (List.mem_map_of_mem sgKeyOf hr))]
    rw [sgKept_eq]

theorem claim_C10_witness :
    DFL.colSum (groupbySumVoiceSortColor dfC10 ["Present"]) (.s "Present")
      = ((dfC10.rows.filter (fun r =>
            getV r (.s "Voice Part") ≠ .na ∧ getV r (.s "sort_key") ≠ .na
              ∧ getV r (.s "color") ≠ .na)).map
          (fun r => (getV r (.s "Present")).toIntD)).sum :=
  claim_C10_subtotals.2.1 dfC10 "Present" (by decide) (by decide) (by decide)

theorem go_ok (today : CDate) :
    ∀ (l : List CDate) (cf f t : CDate),
      determine_concert_cycle_go today cf l = .ok (f, t) →
      (f, t) ∈ cyclesOf cf l ∧ f ≤ today ∧ today ≤ t := by
  intro l
  induction l with
  | nil =>
    intro cf f t h
    exact absurd h (by simp [determine_concert_cycle_go])
  | cons c rest ih =>
    intro cf f t h
    unfold determine_concert_cycle_go at h
    by_cases hc : cf ≤ today ∧ today ≤ c
    · rw [if_pos hc] at h
      have he : (cf, c) = (f, t) := by
        have := h
        simp only [Except.ok.injEq] at this
        exact this
      obtain ⟨rfl, rfl⟩ := Prod.mk.injEq .. ▸ And.intro (congrArg Prod.fst he) (congrArg Prod.snd he)
      exact ⟨List.mem_cons_self _ _, hc.1, hc.2⟩
    · rw [if_neg hc] at h
      have := ih (CDate.nextDay c) f t h
      exact ⟨List.mem_cons_of_mem _ this.1, this.2⟩

theorem go_error_iff (today : CDate) :
    ∀ (l : List CDate) (cf : CDate),
      (determine_concert_cycle_go today cf l
          = .error "Today isn't part of the season (as defined by Monday.com roster)")
        ↔ ∀ c ∈ cyclesOf cf l, ¬ (c.1 ≤ today ∧ today ≤ c.2) := by
  intro l
  induction l with
  | nil =>
    intro cf
    constructor
    · intro _ c hc
      exact absurd hc (by simp [cyclesOf])
    · intro _
      rfl
  | cons c rest ih =>
    intro cf
    unfold determine_concert_cycle_go cyclesOf
    by_cases hc : cf ≤ today ∧ today ≤ c
    · rw [if_pos hc]
      constructor
      · intro h
        exact absurd h (by simp)
      · intro h
        exact absurd hc (by simpa using h (cf, c) (List.mem_cons_self _ _))
    · rw [if_neg hc]
      constructor
      · intro h c1 hc1
        rcases List.mem_cons.mp hc1 with he | hm
        · subst he
          exact hc
        · exact ((ih (CDate.nextDay c)).mp h) c1 hm
      · intro h
        exact (ih (CDate.nextDay c)).mpr (fun c1 hm => h c1 (List.mem_cons_of_mem _ hm))

theorem cyclesOf_shape :
    ∀ (l : List CDate) (cf f t : CDate), (f, t) ∈ cyclesOf cf l →
      t ∈ l ∧ (f = cf ∨ ∃ e ∈ l, f = CDate.nextDay e) := by
  intro l
  induction l with
  | nil =>
    intro cf f t h
    exact absurd h (by simp [cyclesOf])
  | cons c rest ih =>
    intro cf f t h
    unfold cyclesOf at h
    rcases List.mem_cons.mp h with he | hm
    · have h1 : f = cf := (Prod.mk.injEq .. ▸ he).1.symm ▸ rfl
      obtain ⟨hf, ht⟩ := Prod.mk.injEq .. ▸ he.symm
      exact ⟨ht ▸ List.mem_cons_self _ _, Or.inl hf.symm⟩
    · obtain ⟨htl, hfl⟩ := ih (CDate.nextDay c) f t hm
      refine ⟨List.mem_cons_of_mem _ htl, ?_⟩
      rcases hfl with he | ⟨e, hel, hfe⟩
      · exact Or.inr ⟨c, List.mem_cons_self _ _, he⟩
      · exact Or.inr ⟨e, List.mem_cons_of_mem _ hel, hfe⟩

theorem cyclesOf_tail_not_le (today : CDate) (c : CDate) (rest : List CDate)
    (hrest : ∀ e ∈ rest, c ≤ e) (htoday : today ≤ c) :
    ∀ p ∈ cyclesOf (CDate.nextDay c) rest, ¬ p.1 ≤ today := by
  intro p hp
  obtain ⟨_, hf⟩ := cyclesOf_shape rest (CDate.nextDay c) p.1 p.2 (by simpa using hp)
  rcases hf with he | ⟨e, hel, hfe⟩
  · rw [he]
    exact CDate.not_le_of_lt (CDate.lt_of_le_of_lt htoday (CDate.lt_nextDay c))
  · rw [hfe]
    exact CDate.not_le_of_lt
      (CDate.lt_of_le_of_lt (CDate.le_trans htoday (hrest e hel)) (CDate.lt_nextDay e))

theorem cyclesOf_unique (today : CDate) :
    ∀ (l : List CDate) (cf : CDate), l.Sorted (· ≤ ·) →
      ∀ c1 ∈ cyclesOf cf l, ∀ c2 ∈ cyclesOf cf l,
        c1.1 ≤ today → today ≤ c1.2 → c2.1 ≤ today → today ≤ c2.2 → c1 = c2 := by
  intro l
  induction l with
  | nil =>
    intro cf _ c1 h1
    exact absurd h1 (by simp [cyclesOf])
  | cons c rest ih =>
    intro cf hs c1 h1 c2 h2 hf1 ht1 hf2 ht2
    have hhead : ∀ e ∈ rest, c ≤ e := (List.pairwise_cons.mp hs).1
    have hrs : rest.Sorted (· ≤ ·) := (List.pairwise_cons.mp hs).2
    unfold cyclesOf at h1 h2
    rcases List.mem_cons.mp h1 with he1 | hm1 <;> rcases List.mem_cons.mp h2 with he2 | hm2
    · rw [he1, he2]
    · subst he1
      exact absurd hf2 (cyclesOf_tail_not_le today c rest hhead ht1 c2 hm2)
    · subst he2
      exact absurd hf1 (cyclesOf_tail_not_le today c rest hhead ht2 c1 hm1)
    · exact ih (CDate.nextDay c) hrs c1 hm1 c2 hm2 hf1 ht1 hf2 ht2

/-- C7: with at least one concert-date column, `_determine_concert_cycle`
either returns a window `(cycle_from, cycle_to)` of the cycle list
`(Sep 1 of the first concert's year, c₀), (c₀+1, c₁), …` with
`cycle_from ≤ today ≤ cycle_to` — where `cycle_to` is a concert date and
`cycle_from` is September 1 or the day after a concert — and at most one
window of that list contains today; or it raises the no-active-cycle error
exactly when today lies in no window. -/
theorem claim_C7_concert_cycle (cols : List Col) (today : CDate)
    (hne : concertDatesSorted cols ≠ []) :
    ∃ c0 rest, concertDatesSorted cols = c0 :: rest
      ∧ (∀ f t, determine_concert_cycle cols today = .ok (f, t) →
          ((f, t) ∈ cyclesOf ⟨c0.y, 9, 1⟩ (c0 :: rest)
            ∧ f ≤ today ∧ today ≤ t
            ∧ t ∈ c0 :: rest
            ∧ (f = ⟨c0.y, 9, 1⟩ ∨ ∃ prev ∈ c0 :: rest, f = CDate.nextDay prev)))
      ∧ (determine_concert_cycle cols today
            = .error "Today isn't part of the season (as defined by Monday.com roster)"
          ↔ ∀ c ∈ cyclesOf ⟨c0.y, 9, 1⟩ (c0 :: rest), ¬ (c.1 ≤ today ∧ today ≤ c.2))
      ∧ (∀ c1 ∈ cyclesOf ⟨c0.y, 9, 1⟩ (c0 :: rest),
          ∀ c2 ∈ cyclesOf ⟨c0.y, 9, 1⟩ (c0 :: rest),
            c1.1 ≤ today → today ≤ c1.2 → c2.1 ≤ today → today ≤ c2.2 → c1 = c2) := by
  cases h : concertDatesSorted cols with
  | nil => exact absurd h hne
  | cons c0 rest =>
    have hdet : determine_concert_cycle cols today
        = determine_concert_cycle_go today ⟨c0.y, 9, 1⟩ (c0 :: rest) := by
      unfold determine_concert_cycle
      rw [h]
    have hsorted : (c0 :: rest).Sorted (· ≤ ·) := by
      rw [← h]
      exact List.sorted_insertionSort _ _
    refine ⟨c0, rest, rfl, ?_, ?_, ?_⟩
    · intro f t hok
      rw [hdet] at hok
      obtain ⟨hmem, hf, ht⟩ := go_ok today (c0 :: rest) ⟨c0.y, 9, 1⟩ f t hok
      obtain ⟨htl, hfl⟩ := cyclesOf_shape (c0 :: rest) ⟨c0.y, 9, 1⟩ f t hmem
      exact ⟨hmem, hf, ht, htl, hfl⟩
    · rw [hdet]
      exact go_error_iff today (c0 :: rest) ⟨c0.y, 9, 1⟩
    · exact cyclesOf_unique today (c0 :: rest) ⟨c0.y, 9, 1⟩ hsorted

theorem claim_C7_witness :
    concertDatesSorted [Col.s "Name", Col.d ct0] ≠ []
    ∧ (∃ c0 rest, concertDatesSorted [Col.s "Name", Col.d ct0] = c0 :: rest
      ∧ (∀ f t, determine_concert_cycle [Col.s "Name", Col.d ct0] ⟨2025, 10, 16⟩ = .ok (f, t) →
          ((f, t) ∈ cyclesOf ⟨c0.y, 9, 1⟩ (c0 :: rest)
            ∧ f ≤ (⟨2025, 10, 16⟩ : CDate) ∧ (⟨2025, 10, 16⟩ : CDate) ≤ t
            ∧ t ∈ c0 :: rest
            ∧ (f = ⟨c0.y, 9, 1⟩ ∨ ∃ prev ∈ c0 :: rest, f = CDate.nextDay prev)))
      ∧ (determine_concert_cycle [Col.s "Name", Col.d ct0] ⟨2025, 10, 16⟩
            = .error "Today isn't part of the season (as defined by Monday.com roster)"
          ↔ ∀ c ∈ cyclesOf ⟨c0.y, 9, 1⟩ (c0 :: rest),
              ¬ (c.1 ≤ (⟨2025, 10, 16⟩ : CDate) ∧ (⟨2025, 10, 16⟩ : CDate) ≤ c.2))
      ∧ (∀ c1 ∈ cyclesOf ⟨c0.y, 9, 1⟩ (c0 :: rest),
          ∀ c2 ∈ cyclesOf ⟨c0.y, 9, 1⟩ (c0 :: rest),
            c1.1 ≤ (⟨2025, 10, 16⟩ : CDate) → (⟨2025, 10, 16⟩ : CDate) ≤ c1.2 →
            c2.1 ≤ (⟨2025, 10, 16⟩ : CDate) → (⟨2025, 10, 16⟩ : CDate) ≤ c2.2 → c1 = c2)) :=
  ⟨by decide, claim_C7_concert_cycle [Col.s "Name", Col.d ct0] ⟨2025, 10, 16⟩ (by decide)⟩

theorem mem_cJoin1 (roster : List RosterRow) (cands : List CandRow) (t : CJoin1)
    (h : t ∈ cJoin1 roster cands) :
    (∃ r ∈ roster, (∀ c ∈ cands, ¬ c.name = r.name) ∧ t = ⟨some r, none, .leftOnly⟩)
    ∨ (∃ r ∈ roster, ∃ c ∈ cands, c.name = r.name ∧ t = ⟨some r, some c, .both⟩)
    ∨ (∃ c ∈ cands, (∀ r ∈ roster, ¬ r.name = c.name) ∧ t = ⟨none, some c, .rightOnly⟩) := by
  unfold cJoin1 at h
  rcases List.mem_append.mp h with hl | hr
  · obtain ⟨r, hrm, ht⟩ := List.mem_flatMap.mp hl
    cases hfil : cands.filter (fun c => c.name = r.name) with
    | nil =>
      rw [hfil] at ht
      simp only [List.mem_singleton] at ht
      subst ht
      refine Or.inl ⟨r, hrm, ?_, rfl⟩
      intro c hc
      have := List.filter_eq_nil_iff.mp hfil c hc
      simpa using this
    | cons c0 cs =>
      rw [hfil] at ht
      obtain ⟨c, hcm, he⟩ := List.mem_map.mp ht
      rw [← hfil] at hcm
      obtain ⟨hcand, hpred⟩ := List.mem_filter.mp hcm
      exact Or.inr (Or.inl ⟨r, hrm, c, hcand, by simpa using hpred, he.symm⟩)
  · obtain ⟨c, hcm, he⟩ := List.mem_map.mp hr
    obtain ⟨hcand, hpred⟩ := List.mem_filter.mp hcm
    refine Or.inr (Or.inr ⟨c, hcand, ?_, he.symm⟩)
    intro r hrm
    have h2 : ∀ x ∈ roster, ¬ x.name = c.name := by simpa using hpred
    exact h2 r hrm

theorem cJoin1_complete (roster : List RosterRow) (cands : List CandRow) :
    ∀ r ∈ roster, ∃ t ∈ cJoin1 roster cands, t.rosterP = some r ∧ t.nameV = r.name := by
  intro r hrm
  unfold cJoin1
  cases hfil : cands.filter (fun c => c.name = r.name) with
  | nil =>
    refine ⟨⟨some r, none, .leftOnly⟩, ?_, rfl, rfl⟩
    apply List.mem_append.mpr
    exact Or.inl (List.mem_flatMap.mpr ⟨r, hrm, by rw [hfil]; simp⟩)
  | cons c0 cs =>
    refine ⟨⟨some r, some c0, .both⟩, ?_, rfl, rfl⟩
    apply List.mem_append.mpr
    refine Or.inl (List.mem_flatMap.mpr ⟨r, hrm, ?_⟩)
    rw [hfil]
    exact List.mem_map.mpr ⟨c0, List.mem_cons_self _ _, rfl⟩

/-- Any joined row carrying a roster side has that roster row's name as its
merge key, and the roster row belongs to the input. -/
theorem cJoin1_rosterP (roster : List RosterRow) (cands : List CandRow) (t : CJoin1)
    (h : t ∈ cJoin1 roster cands) (r : RosterRow) (hr : t.rosterP = some r) :
    r ∈ roster ∧ t.nameV = r.name := by
  rcases mem_cJoin1 roster cands t h with ⟨r1, hm, _, he⟩ | ⟨r1, hm, c, _, _, he⟩ | ⟨c, _, _, he⟩
  · subst he
    obtain rfl : r1 = r := by simpa using hr
    exact ⟨hm, rfl⟩
  · subst he
    obtain rfl : r1 = r := by simpa using hr
    exact ⟨hm, rfl⟩
  · subst he
    simp at hr

theorem mem_cJoin2 (j1 : List CJoin1) (cg : List CgRow) (t2 : CJoin2)
    (h : t2 ∈ cJoin2 j1 cg) :
    (∃ t1 ∈ j1, (∀ g ∈ cg, ¬ g.wholeName = t1.nameV)
        ∧ t2 = ⟨some t1.nameV, t1.rosterP, t1.candP, some t1.audInd, none, .leftOnly⟩)
    ∨ (∃ t1 ∈ j1, ∃ g ∈ cg, g.wholeName = t1.nameV
        ∧ t2 = ⟨some t1.nameV, t1.rosterP, t1.candP, some t1.audInd, some g, .both⟩)
    ∨ (∃ g ∈ cg, (∀ t1 ∈ j1, ¬ t1.nameV = g.wholeName)
        ∧ t2 = ⟨none, none, none, none, some g, .rightOnly⟩) := by
  unfold cJoin2 at h
  rcases List.mem_append.mp h with hl | hr
  · obtain ⟨t1, hm, ht⟩ := List.mem_flatMap.mp hl
    cases hfil : cg.filter (fun g => g.wholeName = t1.nameV) with
    | nil =>
      rw [hfil] at ht
      simp only [List.mem_singleton] at ht
      subst ht
      refine Or.inl ⟨t1, hm, ?_, rfl⟩
      intro g hg
      have := List.filter_eq_nil_iff.mp hfil g hg
      simpa using this
    | cons g0 gs =>
      rw [hfil] at ht
      obtain ⟨g, hgm, he⟩ := List.mem_map.mp ht
      rw [← hfil] at hgm
      obtain ⟨hge, hpred⟩ := List.mem_filter.mp hgm
      exact Or.inr (Or.inl ⟨t1, hm, g, hge, by simpa using hpred, he.symm⟩)
  · obtain ⟨g, hgm, he⟩ := List.mem_map.mp hr
    obtain ⟨hge, hpred⟩ := List.mem_filter.mp hgm
    refine Or.inr (Or.inr ⟨g, hge, ?_, he.symm⟩)
    intro t1 hm
    have h2 : ∀ x ∈ j1, ¬ x.nameV = g.wholeName := by simpa using hpred
    exact h2 t1 hm

theorem cJoin2_complete (j1 : List CJoin1) (cg : List CgRow) :
    ∀ t1 ∈ j1, ∃ t2 ∈ cJoin2 j1 cg, t2.nameV = some t1.nameV := by
  intro t1 hm
  unfold cJoin2
  cases hfil : cg.filter (fun g => g.wholeName = t1.nameV) with
  | nil =>
    refine ⟨⟨some t1.nameV, t1.rosterP, t1.candP, some t1.audInd, none, .leftOnly⟩, ?_, rfl⟩
    apply List.mem_append.mpr
    exact Or.inl (List.mem_flatMap.mpr ⟨t1, hm, by rw [hfil]; simp⟩)
  | cons g0 gs =>
    refine ⟨⟨some t1.nameV, t1.rosterP, t1.candP, some t1.audInd, some g0, .both⟩, ?_, rfl⟩
    apply List.mem_append.mpr
    refine Or.inl (List.mem_flatMap.mpr ⟨t1, hm, ?_⟩)
    rw [hfil]
    exact List.mem_map.mpr ⟨g0, List.mem_cons_self _ _, rfl⟩

theorem mem_cJoin3 (j2 : List CJoin2) (pca : List (String × Int × Int)) (j : CJoin)
    (h : j ∈ cJoin3 j2 pca) :
    (∃ t2 ∈ j2, (∀ p ∈ pca, ¬ some p.1 = t2.nameV)
        ∧ j = ⟨t2.nameV, t2.rosterP, t2.candP, t2.audInd, t2.cgP, some t2.cgInd,
            none, none, .leftOnly⟩)
    ∨ (∃ t2 ∈ j2, ∃ p ∈ pca, some p.1 = t2.nameV
        ∧ j = ⟨t2.nameV, t2.rosterP, t2.candP, t2.audInd, t2.cgP, some t2.cgInd,
            some p.2.1, some p.2.2, .both⟩)
    ∨ (∃ p ∈ pca, (∀ t2 ∈ j2, ¬ t2.nameV = some p.1)
        ∧ j = ⟨some p.1, none, none, none, none, none, some p.2.1, some p.2.2, .rightOnly⟩) := by
  unfold cJoin3 at h
  rcases List.mem_append.mp h with hl | hr
  · obtain ⟨t2, hm, ht⟩ := List.mem_flatMap.mp hl
    cases hfil : pca.filter (fun p => some p.1 = t2.nameV) with
    | nil =>
      rw [hfil] at ht
      simp only [List.mem_singleton] at ht
      subst ht
      refine Or.inl ⟨t2, hm, ?_, rfl⟩
      intro p hp
      have := List.filter_eq_nil_iff.mp hfil p hp
      simpa using this
    | cons p0 ps =>
      rw [hfil] at ht
      obtain ⟨p, hpm, he⟩ := List.mem_map.mp ht
      rw [← hfil] at hpm
      obtain ⟨hpe, hpred⟩ := List.mem_filter.mp hpm
      exact Or.inr (Or.inl ⟨t2, hm, p, hpe, by simpa using hpred, he.symm⟩)
  · obtain ⟨p, hpm, he⟩ := List.mem_map.mp hr
    obtain ⟨hpe, hpred⟩ := List.mem_filter.mp hpm
    refine Or.inr (Or.inr ⟨p, hpe, ?_, he.symm⟩)
    intro t2 hm
    have h2 : ∀ x ∈ j2, ¬ x.nameV = some p.1 := by simpa using hpred
    exact h2 t2 hm

theorem mem_pcaDerived (pca : MarkTable) (p : String × Int × Int)
    (h : p ∈ pcaDerived pca) :
    ∃ row ∈ pca.rows, p = (row.name, cmaOf pca.dates row, cmsOf pca.dates row) := by
  unfold pcaDerived at h
  obtain ⟨row, hr, he⟩ := List.mem_map.mp h
  exact ⟨row, hr, he.symm⟩

theorem valEq_int_iff (a b : Int) : ((Val.int a).eq (.int b) = true) ↔ a = b := by
  simp [Val.eq]

theorem valEq_str_iff (a b : String) : ((Val.str a).eq (.str b) = true) ↔ a = b := by
  simp [Val.eq]

theorem valNe_some_same (e : String) :
    (Val.ne (optStrVal (some e)) (optStrVal (some e))) = false := by
  simp [Val.ne, optStrVal, Val.eq]

theorem indVal_eq_both_iff (o : Option Ind) :
    ((indVal o).eq (.str "both") = true) ↔ o = some Ind.both := by
  cases o with
  | none => simp [indVal, Val.eq]
  | some i => cases i <;> simp [indVal, Ind.toVal, Val.eq]

theorem indVal_eq_rightOnly_iff (o : Option Ind) :
    ((indVal o).eq (.str "right_only") = true) ↔ o = some Ind.rightOnly := by
  cases o with
  | none => simp [indVal, Val.eq]
  | some i => cases i <;> simp [indVal, Ind.toVal, Val.eq]

theorem indVal_eq_leftOnly_iff (o : Option Ind) :
    ((indVal o).eq (.str "left_only") = true) ↔ o = some Ind.leftOnly := by
  cases o with
  | none => simp [indVal, Val.eq]
  | some i => cases i <;> simp [indVal, Ind.toVal, Val.eq]

/-- With no matching concert-grid row (NaN counts), none of the four
concert-attendance discrepancies can fire. -/
theorem concertPreds_noPca (nc : Nat) (cycleTo : CDate) (j : CJoin)
    (hA : j.cmA = none) (hS : j.cmS = none) :
    marked_no_but_might_sing nc cycleTo j = false
    ∧ markedSomeButRosterNotPartial nc cycleTo j = false
    ∧ marked_yes_but_not_singing nc cycleTo j = false
    ∧ rosterPartialButMarkedOtherwise nc cycleTo j = false := by
  unfold marked_no_but_might_sing markedSomeButRosterNotPartial
    marked_yes_but_not_singing rosterPartialButMarkedOtherwise marked_no
    markedSomeButNotAll marked_yes marked_something
  rw [hA, hS]
  simp [optIntVal, Val.eq]

/-- With a matching concert-grid row whose marks line up with the roster
status, none of the four concert-attendance discrepancies can fire. -/
theorem concertPreds_agree (dates : List CDate) (cycleTo : CDate) (j : CJoin)
    (row : MarkRow) (r : RosterRow)
    (hA : j.cmA = some (cmaOf dates row)) (hS : j.cmS = some (cmsOf dates row))
    (hrost : j.rosterP = some r)
    (hagree : marksAgreeC dates (optStrVal (r.statusAt cycleTo)) row) :
    marked_no_but_might_sing dates.length cycleTo j = false
    ∧ markedSomeButRosterNotPartial dates.length cycleTo j = false
    ∧ marked_yes_but_not_singing dates.length cycleTo j = false
    ∧ rosterPartialButMarkedOtherwise dates.length cycleTo j = false := by
  obtain ⟨hg1, hg2, hg3, hg4⟩ := hagree
  have hstat : j.statusVal cycleTo = optStrVal (r.statusAt cycleTo) := by
    unfold CJoin.statusVal
    rw [hrost]
  have hmn : marked_no dates.length j = true ↔ cmaOf dates row = (dates.length : Int) := by
    unfold marked_no
    rw [hA]
    exact valEq_int_iff _ _
  have hmy : marked_yes dates.length j = true ↔ cmsOf dates row = (dates.length : Int) := by
    unfold marked_yes
    rw [hS]
    exact valEq_int_iff _ _
  have hms : markedSomeButNotAll dates.length j = true ↔
      (0 < cmaOf dates row ∧ ¬ cmaOf dates row = (dates.length : Int)) := by
    unfold markedSomeButNotAll
    rw [hA]
    simp only [Bool.and_eq_true, decide_eq_true_eq, Bool.not_eq_true', optIntVal]
    constructor
    · rintro ⟨h1, h2⟩
      exact ⟨h1, fun he => absurd ((hmn.mpr he).symm.trans h2) (by decide)⟩
    · rintro ⟨h1, h2⟩
      refine ⟨h1, ?_⟩
      rw [Bool.eq_false_iff]
      intro he
      exact h2 (hmn.mp he)
  have hsome : marked_something j = true ↔ 0 < cmaOf dates row + cmsOf dates row := by
    unfold marked_something
    rw [hA, hS]
    simp
  refine ⟨?_, ?_, ?_, ?_⟩
  · rw [Bool.eq_false_iff]
    intro h
    unfold marked_no_but_might_sing might_sing_this_cycle at h
    rw [Bool.and_eq_true, hstat] at h
    exact hg1 ⟨hmn.mp h.1, h.2⟩
  · rw [Bool.eq_false_iff]
    intro h
    unfold markedSomeButRosterNotPartial at h
    rw [Bool.and_eq_true, Bool.not_eq_true', hstat] at h
    obtain ⟨hms1, hnp⟩ := h
    have hpart := hg2 (hms.mp hms1)
    exact absurd (hpart.symm.trans hnp) (by decide)
  · rw [Bool.eq_false_iff]
    intro h
    unfold marked_yes_but_not_singing at h
    rw [Bool.and_eq_true, hstat] at h
    exact hg4 ⟨hmy.mp h.1, h.2⟩
  · rw [Bool.eq_false_iff]
    intro h
    unfold rosterPartialButMarkedOtherwise at h
    rw [Bool.and_eq_true, Bool.and_eq_true, Bool.not_eq_true', hstat] at h
    obtain ⟨⟨hpart, hnotms⟩, hsm⟩ := h
    have hms2 := hms.mpr (hg3 hpart (hsome.mp hsm))
    exact absurd (hms2.symm.trans hnotms) (by decide)

theorem optStr_eq_str_iff (o : Option String) (b : String) :
    ((optStrVal o).eq (.str b) = true) ↔ o = some b := by
  cases o <;> simp [optStrVal, Val.eq]

theorem candMissing_not_rightOnly (season : String) (j : CJoin)
    (h : ¬ j.audInd = some Ind.rightOnly) :
    candidates_missing_from_roster season j = false := by
  unfold candidates_missing_from_roster
  have hb : (indVal j.audInd).eq (.str "right_only") = false := by
    rw [Bool.eq_false_iff]
    intro ht
    exact h ((indVal_eq_rightOnly_iff _).mp ht)
  rw [hb, Bool.and_false]

theorem cgMissing_false (j : CJoin) (h1 : ¬ j.cgInd = some Ind.rightOnly)
    (h2 : ¬ (j.audInd = some Ind.rightOnly ∧ j.cgInd = some Ind.both)) :
    cg_missing_from_roster j = false := by
  unfold cg_missing_from_roster
  have hb1 : (indVal j.cgInd).eq (.str "right_only") = false := by
    rw [Bool.eq_false_iff]
    intro ht
    exact h1 ((indVal_eq_rightOnly_iff _).mp ht)
  have hb2 : ((indVal j.audInd).eq (.str "right_only")
      && (indVal j.cgInd).eq (.str "both")) = false := by
    rw [Bool.eq_false_iff]
    intro ht
    rw [Bool.and_eq_true] at ht
    exact h2 ⟨(indVal_eq_rightOnly_iff _).mp ht.1, (indVal_eq_both_iff _).mp ht.2⟩
  rw [hb1, hb2, Bool.or_false]

theorem mightSing_no_roster (cycleTo : CDate) (j : CJoin) (h : j.rosterP = none) :
    might_sing_this_cycle cycleTo j = false := by
  unfold might_sing_this_cycle CJoin.statusVal
  rw [h]
  rfl

theorem rosterMissing_not_leftOnly (cycleTo : CDate) (j : CJoin)
    (h : ¬ j.cgInd = some Ind.leftOnly) :
    roster_missing_from_cg cycleTo j = false := by
  unfold roster_missing_from_cg not_in_cg
  have hb : (indVal j.cgInd).eq (.str "left_only") = false := by
    rw [Bool.eq_false_iff]
    intro ht
    exact h ((indVal_eq_leftOnly_iff _).mp ht)
  rw [hb, Bool.and_false]

theorem mismatchMask_not_both (j : CJoin) (y x : Val) (h : ¬ j.cgInd = some Ind.both) :
    ((indVal j.cgInd).eq (.str "both") && y.ne x) = false := by
  have hb : (indVal j.cgInd).eq (.str "both") = false := by
    rw [Bool.eq_false_iff]
    intro ht
    exact h ((indVal_eq_both_iff _).mp ht)
  rw [hb, Bool.false_and]

theorem mightSing_roster (cycleTo : CDate) (j : CJoin) (r : RosterRow)
    (h : j.rosterP = some r) (ht : might_sing_this_cycle cycleTo j = true) :
    (optStrVal (r.statusAt cycleTo)).isin (SINGING_STATES ++ MAYBE_STATES) = true := by
  unfold might_sing_this_cycle CJoin.statusVal at ht
  rw [h] at ht
  exact ht

theorem mismatchEmail_agree (j : CJoin) (g : CgRow) (r : RosterRow)
    (hcg : j.cgP = some g) (hrost : j.rosterP = some r)
    (hag : ∃ e, r.email = some e ∧ g.primaryEmail = some e) :
    ((indVal j.cgInd).eq (.str "both")
      && (optStrVal j.emailF).ne (optStrVal (j.cgP.bind (·.primaryEmail)))) = false := by
  obtain ⟨e, he1, he2⟩ := hag
  have hef : j.emailF = some e := by
    unfold CJoin.emailF
    rw [hrost]
    simp [he1]
  have hpe : j.cgP.bind (·.primaryEmail) = some e := by
    rw [hcg]
    simpa using he2
  rw [hef, hpe, valNe_some_same, Bool.and_false]

theorem mismatchVoice_agree (j : CJoin) (g : CgRow) (r : RosterRow)
    (hcg : j.cgP = some g) (hrost : j.rosterP = some r)
    (hag : ∃ v, r.voicePart = some v ∧ g.voicePart = some v) :
    ((indVal j.cgInd).eq (.str "both")
      && (optStrVal j.voiceF).ne (optStrVal (j.cgP.bind (·.voicePart)))) = false := by
  obtain ⟨v, hv1, hv2⟩ := hag
  have hvf : j.voiceF = some v := by
    unfold CJoin.voiceF
    rw [hrost]
    simp [hv1]
  have hpv : j.cgP.bind (·.voicePart) = some v := by
    rw [hcg]
    simpa using hv2
  rw [hvf, hpv, valNe_some_same, Bool.and_false]

/-- Every row of the (unsorted) consistency join is clean when the two systems
agree: each of the seven discrepancy predicates is false on it, and so is the
row's mask bit in each of the two field-mismatch tables. -/
theorem consistency_rows_ok (roster : List RosterRow) (cands : List CandRow)
    (cg : List CgRow) (pca : MarkTable) (season : String) (cycleTo : CDate)
    (H : consistencyAgrees roster cands cg pca season cycleTo) :
    ∀ j ∈ cJoin3 (cJoin2 (cJoin1 roster cands) cg) (pcaDerived pca),
      candidates_missing_from_roster season j = false
      ∧ cg_missing_from_roster j = false
      ∧ roster_missing_from_cg cycleTo j = false
      ∧ marked_no_but_might_sing pca.dates.length cycleTo j = false
      ∧ markedSomeButRosterNotPartial pca.dates.length cycleTo j = false
      ∧ marked_yes_but_not_singing pca.dates.length cycleTo j = false
      ∧ rosterPartialButMarkedOtherwise pca.dates.length cycleTo j = false
      ∧ ((indVal j.cgInd).eq (.str "both")
          && (optStrVal j.emailF).ne (optStrVal (j.cgP.bind (·.primaryEmail)))) = false
      ∧ ((indVal j.cgInd).eq (.str "both")
          && (optStrVal j.voiceF).ne (optStrVal (j.cgP.bind (·.voicePart)))) = false := by
  obtain ⟨H1, H2, H3, H4, H5, H6, H7⟩ := H
  intro j hj
  rcases mem_cJoin3 _ _ j hj with
      ⟨t2, ht2, hnop, rfl⟩ | ⟨t2, ht2, p, hp, hmatch, rfl⟩ | ⟨p, hp, hnot2, rfl⟩
  · -- no matching concert-grid row
    rcases mem_cJoin2 _ _ t2 ht2 with
        ⟨t1, ht1, hnog, rfl⟩ | ⟨t1, ht1, g, hg, hgw, rfl⟩ | ⟨g, hg, hnot1, rfl⟩
    · -- not in ChoirGenius
      rcases mem_cJoin1 _ _ t1 ht1 with
          ⟨r, hr, hnoc, rfl⟩ | ⟨r, hr, c, hc, hcn, rfl⟩ | ⟨c, hc, hnor, rfl⟩
      · refine ⟨candMissing_not_rightOnly _ _ (by simp),
          cgMissing_false _ (by simp) (by simp), ?_, ?_, ?_, ?_, ?_,
          mismatchMask_not_both _ _ _ (by simp), mismatchMask_not_both _ _ _ (by simp)⟩
        · rw [Bool.eq_false_iff]
          intro ht
          unfold roster_missing_from_cg at ht
          rw [Bool.and_eq_true] at ht
          obtain ⟨g, hgm, hgw2⟩ := H3 r hr (mightSing_roster cycleTo _ r rfl ht.1)
          exact hnog g hgm hgw2
        · exact (concertPreds_noPca pca.dates.length cycleTo _ rfl rfl).1
        · exact (concertPreds_noPca pca.dates.length cycleTo _ rfl rfl).2.1
        · exact (concertPreds_noPca pca.dates.length cycleTo _ rfl rfl).2.2.1
        · exact (concertPreds_noPca pca.dates.length cycleTo _ rfl rfl).2.2.2
      · refine ⟨candMissing_not_rightOnly _ _ (by simp),
          cgMissing_false _ (by simp) (by simp), ?_, ?_, ?_, ?_, ?_,
          mismatchMask_not_both _ _ _ (by simp), mismatchMask_not_both _ _ _ (by simp)⟩
        · rw [Bool.eq_false_iff]
          intro ht
          unfold roster_missing_from_cg at ht
          rw [Bool.and_eq_true] at ht
          obtain ⟨g, hgm, hgw2⟩ := H3 r hr (mightSing_roster cycleTo _ r rfl ht.1)
          exact hnog g hgm hgw2
        · exact (concertPreds_noPca pca.dates.length cycleTo _ rfl rfl).1
        · exact (concertPreds_noPca pca.dates.length cycleTo _ rfl rfl).2.1
        · exact (concertPreds_noPca pca.dates.length cycleTo _ rfl rfl).2.2.1
        · exact (concertPreds_noPca pca.dates.length cycleTo _ rfl rfl).2.2.2
      · refine ⟨?_, cgMissing_false _ (by simp) (by simp), ?_, ?_, ?_, ?_, ?_,
          mismatchMask_not_both _ _ _ (by simp), mismatchMask_not_both _ _ _ (by simp)⟩
        · rw [Bool.eq_false_iff]
          intro ht
          unfold candidates_missing_from_roster acceptedC at ht
          rw [Bool.and_eq_true, Bool.and_eq_true] at ht
          have hgr : c.group = season := by
            have h0 := (optStr_eq_str_iff _ _).mp ht.1.1
            simpa using h0
          have hres : c.result = some "Accepted" := (optStr_eq_str_iff _ _).mp ht.1.2
          obtain ⟨r, hr, hrn⟩ := H1 c hc hgr hres
          exact hnor r hr hrn
        · unfold roster_missing_from_cg
          rw [mightSing_no_roster cycleTo _ rfl, Bool.false_and]
        · exact (concertPreds_noPca pca.dates.length cycleTo _ rfl rfl).1
        · exact (concertPreds_noPca pca.dates.length cycleTo _ rfl rfl).2.1
        · exact (concertPreds_noPca pca.dates.length cycleTo _ rfl rfl).2.2.1
        · exact (concertPreds_noPca pca.dates.length cycleTo _ rfl rfl).2.2.2
    · -- in ChoirGenius (both)
      rcases mem_cJoin1 _ _ t1 ht1 with
          ⟨r, hr, hnoc, rfl⟩ | ⟨r, hr, c, hc, hcn, rfl⟩ | ⟨c, hc, hnor, rfl⟩
      · refine ⟨candMissing_not_rightOnly _ _ (by simp),
          cgMissing_false _ (by simp) (by simp),
          rosterMissing_not_leftOnly _ _ (by simp), ?_, ?_, ?_, ?_,
          mismatchEmail_agree _ g r rfl rfl (H4 r hr g hg hgw),
          mismatchVoice_agree _ g r rfl rfl (H5 r hr g hg hgw)⟩
        · exact (concertPreds_noPca pca.dates.length cycleTo _ rfl rfl).1
        · exact (concertPreds_noPca pca.dates.length cycleTo _ rfl rfl).2.1
        · exact (concertPreds_noPca pca.dates.length cycleTo _ rfl rfl).2.2.1
        · exact (concertPreds_noPca pca.dates.length cycleTo _ rfl rfl).2.2.2
      · refine ⟨candMissing_not_rightOnly _ _ (by simp),
          cgMissing_false _ (by simp) (by simp),
          rosterMissing_not_leftOnly _ _ (by simp), ?_, ?_, ?_, ?_,
          mismatchEmail_agree _ g r rfl rfl (H4 r hr g hg hgw),
          mismatchVoice_agree _ g r rfl rfl (H5 r hr g hg hgw)⟩
        · exact (concertPreds_noPca pca.dates.length cycleTo _ rfl rfl).1
        · exact (concertPreds_noPca pca.dates.length cycleTo _ rfl rfl).2.1
        · exact (concertPreds_noPca pca.dates.length cycleTo _ rfl rfl).2.2.1
        · exact (concertPreds_noPca pca.dates.length cycleTo _ rfl rfl).2.2.2
      · obtain ⟨r, hr, hrn⟩ := H2 g hg
        exact absurd (hrn.trans hgw) (hnor r hr)
    · -- ChoirGenius-only rows cannot exist when every member is on the roster
      obtain ⟨r, hr, hrn⟩ := H2 g hg
      obtain ⟨t1, ht1m, _, hname⟩ := cJoin1_complete roster cands r hr
      exact absurd (hname.trans hrn) (hnot1 t1 ht1m)
  · -- matching concert-grid row
    rcases mem_cJoin2 _ _ t2 ht2 with
        ⟨t1, ht1, hnog, rfl⟩ | ⟨t1, ht1, g, hg, hgw, rfl⟩ | ⟨g, hg, hnot1, rfl⟩
    · rcases mem_cJoin1 _ _ t1 ht1 with
          ⟨r, hr, hnoc, rfl⟩ | ⟨r, hr, c, hc, hcn, rfl⟩ | ⟨c, hc, hnor, rfl⟩
      · obtain ⟨row, hrow, rfl⟩ := mem_pcaDerived pca p hp
        have hm2 : row.name = r.name := by simpa using hmatch
        have hag := H7 row hrow r hr hm2.symm
        refine ⟨candMissing_not_rightOnly _ _ (by simp),
          cgMissing_false _ (by simp) (by simp), ?_, ?_, ?_, ?_, ?_,
          mismatchMask_not_both _ _ _ (by simp), mismatchMask_not_both _ _ _ (by simp)⟩
        · rw [Bool.eq_false_iff]
          intro ht
          unfold roster_missing_from_cg at ht
          rw [Bool.and_eq_true] at ht
          obtain ⟨g, hgm, hgw2⟩ := H3 r hr (mightSing_roster cycleTo _ r rfl ht.1)
          exact hnog g hgm hgw2
        · exact (concertPreds_agree pca.dates cycleTo _ row r rfl rfl rfl hag).1
        · exact (concertPreds_agree pca.dates cycleTo _ row r rfl rfl rfl hag).2.1
        · exact (concertPreds_agree pca.dates cycleTo _ row r rfl rfl rfl hag).2.2.1
        · exact (concertPreds_agree pca.dates cycleTo _ row r rfl rfl rfl hag).2.2.2
      · obtain ⟨row, hrow, rfl⟩ := mem_pcaDerived pca p hp
        have hm2 : row.name = r.name := by simpa using hmatch
        have hag := H7 row hrow r hr hm2.symm
        refine ⟨candMissing_not_rightOnly _ _ (by simp),
          cgMissing_false _ (by simp) (by simp), ?_, ?_, ?_, ?_, ?_,
          mismatchMask_not_both _ _ _ (by simp), mismatchMask_not_both _ _ _ (by simp)⟩
        · rw [Bool.eq_false_iff]
          intro ht
          unfold roster_missing_from_cg at ht
          rw [Bool.and_eq_true] at ht
          obtain ⟨g, hgm, hgw2⟩ := H3 r hr (mightSing_roster cycleTo _ r rfl ht.1)
          exact hnog g hgm hgw2
        · exact (concertPreds_agree pca.dates cycleTo _ row r rfl rfl rfl hag).1
        · exact (concertPreds_agree pca.dates cycleTo _ row r rfl rfl rfl hag).2.1
        · exact (concertPreds_agree pca.dates cycleTo _ row r rfl rfl rfl hag).2.2.1
        · exact (concertPreds_agree pca.dates cycleTo _ row r rfl rfl rfl hag).2.2.2
      · obtain ⟨row, hrow, rfl⟩ := mem_pcaDerived pca p hp
        have hm2 : row.name = c.name := by simpa using hmatch
        obtain ⟨r, hr, hrn⟩ := H6 row hrow
        exact absurd (hrn.trans hm2) (hnor r hr)
    · rcases mem_cJoin1 _ _ t1 ht1 with
          ⟨r, hr, hnoc, rfl⟩ | ⟨r, hr, c, hc, hcn, rfl⟩ | ⟨c, hc, hnor, rfl⟩
      · obtain ⟨row, hrow, rfl⟩ := mem_pcaDerived pca p hp
        have hm2 : row.name = r.name := by simpa using hmatch
        have hag := H7 row hrow r hr hm2.symm
        refine ⟨candMissing_not_rightOnly _ _ (by simp),
          cgMissing_false _ (by simp) (by simp),
          rosterMissing_not_leftOnly _ _ (by simp), ?_, ?_, ?_, ?_,
          mismatchEmail_agree _ g r rfl rfl (H4 r hr g hg hgw),
          mismatchVoice_agree _ g r rfl rfl (H5 r hr g hg hgw)⟩
        · exact (concertPreds_agree pca.dates cycleTo _ row r rfl rfl rfl hag).1
        · exact (concertPreds_agree pca.dates cycleTo _ row r rfl rfl rfl hag).2.1
        · exact (concertPreds_agree pca.dates cycleTo _ row r rfl rfl rfl hag).2.2.1
        · exact (concertPreds_agree pca.dates cycleTo _ row r rfl rfl rfl hag).2.2.2
      · obtain ⟨row, hrow, rfl⟩ := mem_pcaDerived pca p hp
        have hm2 : row.name = r.name := by simpa using hmatch
        have hag := H7 row hrow r hr hm2.symm
        refine ⟨candMissing_not_rightOnly _ _ (by simp),
          cgMissing_false _ (by simp) (by simp),
          rosterMissing_not_leftOnly _ _ (by simp), ?_, ?_, ?_, ?_,
          mismatchEmail_agree _ g r rfl rfl (H4 r hr g hg hgw),
          mismatchVoice_agree _ g r rfl rfl (H5 r hr g hg hgw)⟩
        · exact (concertPreds_agree pca.dates cycleTo _ row r rfl rfl rfl hag).1
        · exact (concertPreds_agree pca.dates cycleTo _ row r rfl rfl rfl hag).2.1
        · exact (concertPreds_agree pca.dates cycleTo _ row r rfl rfl rfl hag).2.2.1
        · exact (concertPreds_agree pca.dates cycleTo _ row r rfl rfl rfl hag).2.2.2
      · obtain ⟨r, hr, hrn⟩ := H2 g hg
        exact absurd (hrn.trans hgw) (hnor r hr)
    · exact absurd hmatch (by simp)
  · -- concert-grid-only rows cannot exist when every grid row names a roster singer
    obtain ⟨row, hrow, rfl⟩ := mem_pcaDerived pca p hp
    obtain ⟨r, hr, hrn⟩ := H6 row hrow
    obtain ⟨t1, ht1m, _, hname⟩ := cJoin1_complete roster cands r hr
    obtain ⟨t2, ht2m, hnm⟩ := cJoin2_complete (cJoin1 roster cands) cg t1 ht1m
    have hfin : t2.nameV = some row.name := by
      rw [hnm, hname, hrn]
    exact absurd hfin (hnot2 t2 ht2m)

theorem maskRows_all_false (rows : List Row) (mask : List Bool)
    (h : ∀ b ∈ mask, b = false) : DFL.maskRows rows mask = [] := by
  unfold DFL.maskRows
  have hf : (rows.zip mask).filter (fun p => p.2) = [] := by
    rw [List.filter_eq_nil_iff]
    intro p hp
    obtain ⟨r, b⟩ := p
    have hb := (List.of_mem_zip hp).2
    simp [h b hb]
  rw [hf]
  rfl

/-- If no row's mask bit is set, `format_mismatch_table` returns the "None"
sentinel. -/
theorem format_mismatch_none (df : DFL) (m c : String)
    (h : ∀ r ∈ df.rows,
      ((getV r (.s "cg")).eq (.str "both") && (getV r (.s m)).ne (getV r (.s c))) = false) :
    format_mismatch_table df m c = "None" := by
  have hm : DFL.maskRows df.rows (df.rows.map (fun r =>
      (getV r (.s "cg")).eq (.str "both") && (getV r (.s m)).ne (getV r (.s c)))) = [] := by
    apply maskRows_all_false
    intro b hb
    obtain ⟨r, hr, rfl⟩ := List.mem_map.mp hb
    exact h r hr
  simp only [format_mismatch_table]
  rw [hm]
  rfl

theorem getV_cj_cg (j : CJoin) : getV (cjToRow j) (.s "cg") = indVal j.cgInd := rfl

theorem getV_cj_email (j : CJoin) : getV (cjToRow j) (.s "Email") = optStrVal j.emailF := rfl

theorem getV_cj_pemail (j : CJoin) :
    getV (cjToRow j) (.s "primary_email") = optStrVal (j.cgP.bind (·.primaryEmail)) := rfl

theorem getV_cj_voice (j : CJoin) :
    getV (cjToRow j) (.s "Voice Part") = optStrVal j.voiceF := rfl

theorem getV_cj_pvoice (j : CJoin) :
    getV (cjToRow j) (.s "voice_part") = optStrVal (j.cgP.bind (·.voicePart)) := rfl

/-- **C3.** `generate_consistency_report` returns `worth_sending = true` iff at
least one of its seven discrepancy sets is non-empty or either field-mismatch
table is not the "None" sentinel; and for every pair of input systems that
agree exactly on overlapping fields and membership (`consistencyAgrees`),
`worth_sending` is false, every discrepancy set is empty, and both mismatch
tables are "None". -/
theorem claim_C3_worth_sending (roster : RosterTable) (cands : List CandRow)
    (cg : List CgRow) (pca : MarkTable) (season : String) (cycleTo : CDate) (ts : String) :
    ((generate_consistency_report roster cands cg pca season cycleTo ts).2 = true
      ↔ ((∃ j ∈ consistencyJoin roster.rows cands cg pca,
            candidates_missing_from_roster season j = true)
        ∨ (∃ j ∈ consistencyJoin roster.rows cands cg pca, cg_missing_from_roster j = true)
        ∨ (∃ j ∈ consistencyJoin roster.rows cands cg pca,
            roster_missing_from_cg cycleTo j = true)
        ∨ format_mismatch_table (cjDFL (consistencyJoin roster.rows cands cg pca))
            "Email" "primary_email" ≠ "None"
        ∨ format_mismatch_table (cjDFL (consistencyJoin roster.rows cands cg pca))
            "Voice Part" "voice_part" ≠ "None"
        ∨ (∃ j ∈ consistencyJoin roster.rows cands cg pca,
            marked_no_but_might_sing pca.dates.length cycleTo j = true)
        ∨ (∃ j ∈ consistencyJoin roster.rows cands cg pca,
            markedSomeButRosterNotPartial pca.dates.length cycleTo j = true)
        ∨ (∃ j ∈ consistencyJoin roster.rows cands cg pca,
            marked_yes_but_not_singing pca.dates.length cycleTo j = true)
        ∨ (∃ j ∈ consistencyJoin roster.rows cands cg pca,
            rosterPartialButMarkedOtherwise pca.dates.length cycleTo j = true)))
    ∧ (consistencyAgrees roster.rows cands cg pca season cycleTo →
        (generate_consistency_report roster cands cg pca season cycleTo ts).2 = false
        ∧ (∀ j ∈ consistencyJoin roster.rows cands cg pca,
            candidates_missing_from_roster season j = false
            ∧ cg_missing_from_roster j = false
            ∧ roster_missing_from_cg cycleTo j = false
            ∧ marked_no_but_might_sing pca.dates.length cycleTo j = false
            ∧ markedSomeButRosterNotPartial pca.dates.length cycleTo j = false
            ∧ marked_yes_but_not_singing pca.dates.length cycleTo j = false
            ∧ rosterPartialButMarkedOtherwise pca.dates.length cycleTo j = false)
        ∧ format_mismatch_table (cjDFL (consistencyJoin roster.rows cands cg pca))
            "Email" "primary_email" = "None"
        ∧ format_mismatch_table (cjDFL (consistencyJoin roster.rows cands cg pca))
            "Voice Part" "voice_part" = "None") := by
  have hw : (generate_consistency_report roster cands cg pca season cycleTo ts).2
      = worth_sending_consistency (consistencyJoin roster.rows cands cg pca) season
          pca.dates.length cycleTo := rfl
  have hiff : (generate_consistency_report roster cands cg pca season cycleTo ts).2 = true
      ↔ ((∃ j ∈ consistencyJoin roster.rows cands cg pca,
            candidates_missing_from_roster season j = true)
        ∨ (∃ j ∈ consistencyJoin roster.rows cands cg pca, cg_missing_from_roster j = true)
        ∨ (∃ j ∈ consistencyJoin roster.rows cands cg pca,
            roster_missing_from_cg cycleTo j = true)
        ∨ format_mismatch_table (cjDFL (consistencyJoin roster.rows cands cg pca))
            "Email" "primary_email" ≠ "None"
        ∨ format_mismatch_table (cjDFL (consistencyJoin roster.rows cands cg pca))
            "Voice Part" "voice_part" ≠ "None"
        ∨ (∃ j ∈ consistencyJoin roster.rows cands cg pca,
            marked_no_but_might_sing pca.dates.length cycleTo j = true)
        ∨ (∃ j ∈ consistencyJoin roster.rows cands cg pca,
            markedSomeButRosterNotPartial pca.dates.length cycleTo j = true)
        ∨ (∃ j ∈ consistencyJoin roster.rows cands cg pca,
            marked_yes_but_not_singing pca.dates.length cycleTo j = true)
        ∨ (∃ j ∈ consistencyJoin roster.rows cands cg pca,
            rosterPartialButMarkedOtherwise pca.dates.length cycleTo j = true)) := by
    rw [hw]
    unfold worth_sending_consistency
    simp only [List.any_cons, List.any_nil, id_eq, Bool.or_eq_true, Bool.or_false,
      decide_eq_true_eq, List.countP_pos_iff, ne_eq]
  refine ⟨hiff, fun H => ?_⟩
  have hmem : ∀ j ∈ consistencyJoin roster.rows cands cg pca,
      j ∈ cJoin3 (cJoin2 (cJoin1 roster.rows cands) cg) (pcaDerived pca) := by
    intro j hj
    exact (List.perm_insertionSort cjLe _).mem_iff.mp hj
  have hA := fun j hj =>
    consistency_rows_ok roster.rows cands cg pca season cycleTo H j (hmem j hj)
  have he : format_mismatch_table (cjDFL (consistencyJoin roster.rows cands cg pca))
      "Email" "primary_email" = "None" := by
    apply format_mismatch_none
    intro r hr
    obtain ⟨j, hj, rfl⟩ := List.mem_map.mp hr
    rw [getV_cj_cg, getV_cj_email, getV_cj_pemail]
    exact (hA j hj).2.2.2.2.2.2.2.1
  have hv : format_mismatch_table (cjDFL (consistencyJoin roster.rows cands cg pca))
      "Voice Part" "voice_part" = "None" := by
    apply format_mismatch_none
    intro r hr
    obtain ⟨j, hj, rfl⟩ := List.mem_map.mp hr
    rw [getV_cj_cg, getV_cj_voice, getV_cj_pvoice]
    exact (hA j hj).2.2.2.2.2.2.2.2
  refine ⟨?_, ?_, he, hv⟩
  · rw [Bool.eq_false_iff]
    intro ht
    rcases hiff.mp ht with
        ⟨j, hj, hp⟩ | ⟨j, hj, hp⟩ | ⟨j, hj, hp⟩ | h | h
      | ⟨j, hj, hp⟩ | ⟨j, hj, hp⟩ | ⟨j, hj, hp⟩ | ⟨j, hj, hp⟩
    · have h0 := (hA j hj).1
      rw [hp] at h0
      simp at h0
    · have h0 := (hA j hj).2.1
      rw [hp] at h0
      simp at h0
    · have h0 := (hA j hj).2.2.1
      rw [hp] at h0
      simp at h0
    · exact h he
    · exact h hv
    · have h0 := (hA j hj).2.2.2.1
      rw [hp] at h0
      simp at h0
    · have h0 := (hA j hj).2.2.2.2.1
      rw [hp] at h0
      simp at h0
    · have h0 := (hA j hj).2.2.2.2.2.1
      rw [hp] at h0
      simp at h0
    · have h0 := (hA j hj).2.2.2.2.2.2.1
      rw [hp] at h0
      simp at h0
  · intro j hj
    obtain ⟨h1, h2, h3, h4, h5, h6, h7, h8, h9⟩ := hA j hj
    exact ⟨h1, h2, h3, h4, h5, h6, h7⟩

/-- Witness for C3: on agreeing fixture systems (one roster singer mirrored in
the portal and the concert grid), the hypothesis holds and the report is not
worth sending. -/
theorem claim_C3_witness :
    consistencyAgrees rosterT.rows [] cgAliceOk pcaAliceOk "2025-26" ct0
    ∧ (generate_consistency_report rosterT [] cgAliceOk pcaAliceOk
        "2025-26" ct0 "ts").2 = false :=
  ⟨by unfold consistencyAgrees marksAgreeC; decide,
   ((claim_C3_worth_sending rosterT [] cgAliceOk pcaAliceOk "2025-26" ct0 "ts").2
      (by unfold consistencyAgrees marksAgreeC; decide)).1⟩

end Cantori
